import Mathlib

/-!
Verification of the uniplex-mcp-manage translation layer.

The repository translates named management operations ("tools") plus an
argument record into a single HTTP request, and normalizes HTTP responses
and failures.  This file gives a shallow embedding of:

* the JavaScript value universe that argument records range over
  (`JsValue`): `undefined`, `null`, booleans, numbers (modelled as `Int`:
  all values the program manipulates are integers), strings, arrays and
  objects (association lists of fields);
* the transport executor `ApiClient.request`: query construction from a
  params mapping (`buildQuery`, dropping only `undefined`-valued keys and
  stringifying the rest exactly as `String(value)` does, with the
  replace-on-repeat semantics of `URLSearchParams.set`), JSON body
  serialization (`wireBody`, dropping `undefined`-valued top-level
  properties like `JSON.stringify`, and sending no payload for a falsy
  body value), and response classification (`handleResponse`);
* all 45 operation translators, one Lean function per handler, producing
  a `Request` record {method, path, query pairs, body value}.  Handlers
  that pass a params object to `api.get` appear here with the transport's
  query construction already applied to that object; `list_attestations`,
  which builds its own query string with truthiness guards and appends it
  to the path in the source, keeps its pairs in the same `query` field;
* the dispatch table `allHandlers` and entry point `handleToolCall`
  (modelling `allHandlers[name]` as a JavaScript property read: own keys
  first, then the truthy members inherited from `Object.prototype`,
  and only then `undefined` and the unknown-tool error), and the
  advertised catalog `allToolNames`.

URL percent-encoding of query values is not modelled: queries are kept as
key/value string pairs before encoding, which is what every claim below
inspects.  The repository contains two historical variants of the gates,
passports and registry modules; following the spec's design note and the
repository's tests (45 advertised tools, `reissue_passport` present), the
richer later-registered passports module and the five-tool gates module
are taken as canonical.
-/

namespace UniplexManage

/-- The JavaScript values that argument records, query params and bodies
range over.  Numbers are modelled as `Int` (every numeric value the
program manipulates is an integer). -/
inductive JsValue where
  | undef
  | jnull
  | bool (b : Bool)
  | num (n : Int)
  | str (s : String)
  | arr (elems : List JsValue)
  | obj (fields : List (String × JsValue))

/-- Source: `value === undefined`. -/
def isUndef : JsValue → Bool
  | .undef => true
  | _ => false

/-- JavaScript truthiness of a value. -/
def jsTruthy : JsValue → Bool
  | .undef => false
  | .jnull => false
  | .bool b => b
  | .num n => n != 0
  | .str s => s != ""
  | .arr _ => true
  | .obj _ => true

/-- Source: `value == null`, i.e. the nullish test used by `??`. -/
def jsNullish : JsValue → Bool
  | .undef => true
  | .jnull => true
  | _ => false

mutual

/-- Element conversion inside `Array.prototype.join`: `null` and
`undefined` become the empty string. -/
def jsArrElemStr : JsValue → String
  | .undef => ""
  | .jnull => ""
  | .bool b => cond b "true" "false"
  | .num n => toString n
  | .str s => s
  | .arr xs => jsArrJoin xs
  | .obj _ => "[object Object]"

/-- Source: `Array.prototype.join(",")` over converted elements. -/
def jsArrJoin : List JsValue → String
  | [] => ""
  | x :: xs =>
    match xs with
    | [] => jsArrElemStr x
    | _ => jsArrElemStr x ++ "," ++ jsArrJoin xs

end

/-- Source: `String(value)`: the conversion applied by template-literal path
interpolation and by `URLSearchParams` to query values. -/
def jsString : JsValue → String
  | .undef => "undefined"
  | .jnull => "null"
  | .bool b => cond b "true" "false"
  | .num n => toString n
  | .str s => s
  | .arr xs => jsArrJoin xs
  | .obj _ => "[object Object]"

/-- An argument record: the field/value mapping supplied per call. -/
abbrev Args := List (String × JsValue)

/-- Property read `args[k]`: the bound value, `undefined` when absent. -/
def getArg (args : Args) (k : String) : JsValue :=
  (args.lookup k).getD (.undef : JsValue)

/-- Rest-spread destructuring `const { k, ...rest } = args`: every field
except `k`. -/
def removeKey (args : Args) (k : String) : Args :=
  args.filter (fun p => p.1 != k)

/-- HTTP method of a translated request. -/
inductive Method where
  | GET
  | POST
  | PUT
  | PATCH
  | DELETE
deriving DecidableEq

/-- A translated request: method, path (relative to the base URL, without
its query string), the key/value pairs of the final query string, and the
body value handed to `JSON.stringify` (`none` when no body argument is
passed). -/
structure Request where
  method : Method
  path : String
  query : List (String × String)
  body : Option JsValue

/-- Source: `URLSearchParams.set`: replace the value of an existing key, else
append the pair. -/
def setParam (l : List (String × String)) (k v : String) :
    List (String × String) :=
  if l.any (fun p => p.1 == k) then
    l.map (fun p => if p.1 == k then (k, v) else p)
  else
    l ++ [(k, v)]

/-- Query construction in `ApiClient.request`: iterate the params mapping
in order, skip `undefined` values, stringify and set everything else. -/
def buildQuery (ps : List (String × JsValue)) : List (String × String) :=
  ps.foldl
    (fun acc p => if isUndef p.2 then acc else setParam acc p.1 (jsString p.2))
    []

/-- The `if (<value>) params.set(k, <value>)` pattern of
`list_attestations`: set the pair only when the value is truthy. -/
def truthySet (l : List (String × String)) (k : String) (v : JsValue) :
    List (String × String) :=
  if jsTruthy v then setParam l k (jsString v) else l

/-- The top level of `JSON.stringify` on an object: `undefined`-valued
properties are dropped.  (The claims below only inspect top-level keys.) -/
def stripTop : JsValue → JsValue
  | .obj fs => .obj (fs.filter (fun p => !(isUndef p.2)))
  | v => v

/-- The body that reaches the wire: `ApiClient.request` sends
`JSON.stringify(options.body)` only when the body value is truthy
(`body: options?.body ? JSON.stringify(options.body) : undefined`). -/
def wireBody (b : Option JsValue) : Option JsValue :=
  match b with
  | none => none
  | some v => if jsTruthy v then some (stripTop v) else none

/-- Top-level keys of the wire body of a request. -/
def bodyKeys (r : Request) : List String :=
  match wireBody r.body with
  | some (.obj fs) => fs.map Prod.fst
  | _ => []

/-- Value of a top-level wire-body field. -/
def bodyField (r : Request) (f : String) : Option JsValue :=
  match wireBody r.body with
  | some (.obj fs) => fs.lookup f
  | _ => none

/-- Keys of the produced query string. -/
def queryKeys (r : Request) : List String :=
  r.query.map Prod.fst

/-! ## Gate translators (src/tools/gates.ts, five-tool canonical variant) -/

/-- Source: `api.get('/api/gates')`. -/
def list_gates (_ : Args) : Request :=
  ⟨.GET, "/api/gates", [], none⟩

/-- Source: `api.get('/api/gates/' + gate_id)`. -/
def get_gate (args : Args) : Request :=
  ⟨.GET, "/api/gates/" ++ jsString (getArg args "gate_id"), [], none⟩

/-- Source: `api.post('/api/gates', { name, gate_id, description, profile,
allow_self_issued })`: all five properties are written, the absent ones
with value `undefined`. -/
def create_gate (args : Args) : Request :=
  ⟨.POST, "/api/gates", [],
    some (.obj
      [("name", getArg args "name"),
       ("gate_id", getArg args "gate_id"),
       ("description", getArg args "description"),
       ("profile", getArg args "profile"),
       ("allow_self_issued", getArg args "allow_self_issued")])⟩

/-- Source: `const { gate_id, ...updates } = args; api.patch(path, updates)`. -/
def update_gate (args : Args) : Request :=
  ⟨.PATCH, "/api/gates/" ++ jsString (getArg args "gate_id"), [],
    some (.obj (removeKey args "gate_id"))⟩

/-- Source: `api.delete('/api/gates/' + gate_id)`. -/
def delete_gate (args : Args) : Request :=
  ⟨.DELETE, "/api/gates/" ++ jsString (getArg args "gate_id"), [], none⟩

/-! ## Passport translators (src/tools/passports.ts, canonical variant
with `reissue_passport`) -/

/-- Source: `api.get('/api/gates/' + gate_id + '/passports')`. -/
def list_passports (args : Args) : Request :=
  ⟨.GET, "/api/gates/" ++ jsString (getArg args "gate_id") ++ "/passports",
    [], none⟩

/-- Source: `api.get('/api/gates/' + gate_id + '/passports/' + passport_id)`. -/
def get_passport (args : Args) : Request :=
  ⟨.GET,
    "/api/gates/" ++ jsString (getArg args "gate_id") ++ "/passports/" ++
      jsString (getArg args "passport_id"),
    [], none⟩

/-- Source: `const { gate_id, ...body } = args; api.post(path, body)`. -/
def issue_passport (args : Args) : Request :=
  ⟨.POST, "/api/gates/" ++ jsString (getArg args "gate_id") ++ "/passports",
    [], some (.obj (removeKey args "gate_id"))⟩

/-- Source: `api.delete('/api/gates/' + gate_id + '/passports/' + passport_id)`. -/
def revoke_passport (args : Args) : Request :=
  ⟨.DELETE,
    "/api/gates/" ++ jsString (getArg args "gate_id") ++ "/passports/" ++
      jsString (getArg args "passport_id"),
    [], none⟩

/-- Source: `body = {}; if (accept_catalog_version !== undefined)
body.accept_catalog_version = accept_catalog_version`. -/
def reissue_passport (args : Args) : Request :=
  let b : List (String × JsValue) :=
    if isUndef (getArg args "accept_catalog_version") then []
    else [("accept_catalog_version", getArg args "accept_catalog_version")]
  ⟨.POST,
    "/api/passports/" ++ jsString (getArg args "passport_id") ++ "/reissue",
    [], some (.obj b)⟩

/-! ## Attestation translators (src/tools/attestations.ts) -/

/-- Builds its own `URLSearchParams` with truthiness guards
(`if (passport_id) params.set(...)`, `if (limit) params.set('limit',
String(limit))`) and appends the query string to the path; the pairs are
kept in the `query` field here. -/
def list_attestations (args : Args) : Request :=
  let q1 := truthySet [] "passport_id" (getArg args "passport_id")
  let q2 := truthySet q1 "agent_id" (getArg args "agent_id")
  let q3 := truthySet q2 "permission" (getArg args "permission")
  let q4 := truthySet q3 "since" (getArg args "since")
  let q5 := truthySet q4 "limit" (getArg args "limit")
  ⟨.GET, "/api/gates/" ++ jsString (getArg args "gate_id") ++ "/attestations",
    q5, none⟩

/-- Source: `const { gate_id, ...body } = args; api.post(path, body)`. -/
def record_attestation (args : Args) : Request :=
  ⟨.POST,
    "/api/gates/" ++ jsString (getArg args "gate_id") ++ "/attestations",
    [], some (.obj (removeKey args "gate_id"))⟩

/-! ## Catalog translators (src/tools/catalogs.ts) -/

/-- Source: `api.get('/api/gates/' + gate_id + '/catalog')`. -/
def get_catalog (args : Args) : Request :=
  ⟨.GET, "/api/gates/" ++ jsString (getArg args "gate_id") ++ "/catalog",
    [], none⟩

/-- Source: `const { gate_id, ...body } = args; api.post(path, body)`. -/
def create_catalog (args : Args) : Request :=
  ⟨.POST, "/api/gates/" ++ jsString (getArg args "gate_id") ++ "/catalog",
    [], some (.obj (removeKey args "gate_id"))⟩

/-- Source: `body = {}` plus per-field presence checks for `change_summary` and
`effective_at`. -/
def publish_catalog (args : Args) : Request :=
  let b0 : List (String × JsValue) := []
  let b1 :=
    if isUndef (getArg args "change_summary") then b0
    else b0 ++ [("change_summary", getArg args "change_summary")]
  let b2 :=
    if isUndef (getArg args "effective_at") then b1
    else b1 ++ [("effective_at", getArg args "effective_at")]
  ⟨.POST,
    "/api/gates/" ++ jsString (getArg args "gate_id") ++ "/catalog/publish",
    [], some (.obj b2)⟩

/-- Source: `api.get('/api/gates/' + gate_id + '/catalog/versions')`. -/
def list_catalog_versions (args : Args) : Request :=
  ⟨.GET,
    "/api/gates/" ++ jsString (getArg args "gate_id") ++ "/catalog/versions",
    [], none⟩

/-- Source: `api.get('/api/gates/' + gate_id + '/catalog/' + version)`. -/
def get_catalog_version (args : Args) : Request :=
  ⟨.GET,
    "/api/gates/" ++ jsString (getArg args "gate_id") ++ "/catalog/" ++
      jsString (getArg args "version"),
    [], none⟩

/-- Source: `api.get('/api/gates/' + gate_id + '/catalog/impact')`. -/
def get_catalog_impact (args : Args) : Request :=
  ⟨.GET,
    "/api/gates/" ++ jsString (getArg args "gate_id") ++ "/catalog/impact",
    [], none⟩

/-! ## Check translators (src/tools/check.ts) -/

/-- Source: `body = { action }` plus presence checks for `passport_id` and
`target`. -/
def check_gate (args : Args) : Request :=
  let b0 : List (String × JsValue) := [("action", getArg args "action")]
  let b1 :=
    if isUndef (getArg args "passport_id") then b0
    else b0 ++ [("passport_id", getArg args "passport_id")]
  let b2 :=
    if isUndef (getArg args "target") then b1
    else b1 ++ [("target", getArg args "target")]
  ⟨.POST, "/api/gates/" ++ jsString (getArg args "gate_id") ++ "/check",
    [], some (.obj b2)⟩

/-- Source: `body = { gate_id, passport, requested_permission }` plus a presence
check for `requested_constraints`; note `gate_id` goes in the body here,
the path is constant. -/
def authorize_dry_run (args : Args) : Request :=
  let b0 : List (String × JsValue) :=
    [("gate_id", getArg args "gate_id"),
     ("passport", getArg args "passport"),
     ("requested_permission", getArg args "requested_permission")]
  let b1 :=
    if isUndef (getArg args "requested_constraints") then b0
    else b0 ++ [("requested_constraints", getArg args "requested_constraints")]
  ⟨.POST, "/api/authorize/dry-run", [], some (.obj b1)⟩

/-! ## Constraint translators (src/tools/constraints.ts) -/

/-- Source: `api.get('/api/passports/' + passport_id + '/constraints')`. -/
def get_constraints (args : Args) : Request :=
  ⟨.GET,
    "/api/passports/" ++ jsString (getArg args "passport_id") ++
      "/constraints",
    [], none⟩

/-- Source: `api.put(path, constraints)`: the caller's `constraints` value is the
body, forwarded verbatim. -/
def set_constraints (args : Args) : Request :=
  ⟨.PUT,
    "/api/passports/" ++ jsString (getArg args "passport_id") ++
      "/constraints",
    [], some (getArg args "constraints")⟩

/-- Source: `api.get('/api/constraints/types', { category })`. -/
def list_constraint_types (args : Args) : Request :=
  ⟨.GET, "/api/constraints/types",
    buildQuery [("category", getArg args "category")], none⟩

/-- Source: `api.get('/api/constraint-templates', { category })`. -/
def list_constraint_templates (args : Args) : Request :=
  ⟨.GET, "/api/constraint-templates",
    buildQuery [("category", getArg args "category")], none⟩

/-- Source: `api.post(path, { template_slug })`. -/
def apply_constraint_template (args : Args) : Request :=
  ⟨.POST,
    "/api/passports/" ++ jsString (getArg args "passport_id") ++
      "/constraints",
    [], some (.obj [("template_slug", getArg args "template_slug")])⟩

/-- Source: `api.post('/api/constraint-templates', args)`: the whole argument
record is the body. -/
def create_constraint_template (args : Args) : Request :=
  ⟨.POST, "/api/constraint-templates", [], some (.obj args)⟩

/-! ## Enforcement translators (CEL enforcement module) -/

/-- Source: `body = { passport_id, action }` plus presence checks for `target`,
`cost_cents` and `metadata`. -/
def enforce_action (args : Args) : Request :=
  let b0 : List (String × JsValue) :=
    [("passport_id", getArg args "passport_id"),
     ("action", getArg args "action")]
  let b1 :=
    if isUndef (getArg args "target") then b0
    else b0 ++ [("target", getArg args "target")]
  let b2 :=
    if isUndef (getArg args "cost_cents") then b1
    else b1 ++ [("cost_cents", getArg args "cost_cents")]
  let b3 :=
    if isUndef (getArg args "metadata") then b2
    else b2 ++ [("metadata", getArg args "metadata")]
  ⟨.POST, "/api/enforce", [], some (.obj b3)⟩

/-- Source: `api.get(path, { decision, limit })`. -/
def list_enforcement_attestations (args : Args) : Request :=
  ⟨.GET,
    "/api/passports/" ++ jsString (getArg args "passport_id") ++
      "/enforcement",
    buildQuery
      [("decision", getArg args "decision"), ("limit", getArg args "limit")],
    none⟩

/-- Source: `api.get('/api/enforcement/' + attestation_id)`. -/
def get_enforcement_attestation (args : Args) : Request :=
  ⟨.GET, "/api/enforcement/" ++ jsString (getArg args "attestation_id"),
    [], none⟩

/-- Source: `api.post('/api/enforcement/' + attestation_id + '/verify')`: POST
with no body argument. -/
def verify_enforcement_attestation (args : Args) : Request :=
  ⟨.POST,
    "/api/enforcement/" ++ jsString (getArg args "attestation_id") ++
      "/verify",
    [], none⟩

/-! ## Anonymous-access translators -/

/-- Source: `api.get('/api/gates/' + gate_id + '/anonymous-policy')`. -/
def get_anonymous_policy (args : Args) : Request :=
  ⟨.GET,
    "/api/gates/" ++ jsString (getArg args "gate_id") ++ "/anonymous-policy",
    [], none⟩

/-- Source: `const { gate_id, ...body } = args; api.put(path, body)`. -/
def set_anonymous_policy (args : Args) : Request :=
  ⟨.PUT,
    "/api/gates/" ++ jsString (getArg args "gate_id") ++ "/anonymous-policy",
    [], some (.obj (removeKey args "gate_id"))⟩

/-- Source: `api.get('/api/gates/' + gate_id + '/anonymous-log')`. -/
def get_anonymous_log (args : Args) : Request :=
  ⟨.GET,
    "/api/gates/" ++ jsString (getArg args "gate_id") ++ "/anonymous-log",
    [], none⟩

/-! ## Cumulative-state translators (src/tools/state.ts) -/

/-- Source: `api.get('/api/passports/' + passport_id + '/state')`. -/
def get_cumulative_state (args : Args) : Request :=
  ⟨.GET,
    "/api/passports/" ++ jsString (getArg args "passport_id") ++ "/state",
    [], none⟩

/-- Source: `body = {}` plus a presence check for `window_type`. -/
def reset_cumulative_state (args : Args) : Request :=
  let b : List (String × JsValue) :=
    if isUndef (getArg args "window_type") then []
    else [("window_type", getArg args "window_type")]
  ⟨.POST,
    "/api/passports/" ++ jsString (getArg args "passport_id") ++
      "/state/reset",
    [], some (.obj b)⟩

/-! ## Commerce translators (src/tools/commerce.ts) -/

/-- Source: `api.get('/api/discover', { capability, max_price_cents, ... })`. -/
def discover_services (args : Args) : Request :=
  ⟨.GET, "/api/discover",
    buildQuery
      [("capability", getArg args "capability"),
       ("max_price_cents", getArg args "max_price_cents"),
       ("min_uptime_bp", getArg args "min_uptime_bp"),
       ("max_response_time_ms", getArg args "max_response_time_ms"),
       ("pricing_model", getArg args "pricing_model"),
       ("sort", getArg args "sort"),
       ("limit", getArg args "limit"),
       ("offset", getArg args "offset")],
    none⟩

/-- Source: `body = { passport_id, gate_id, action, outcome,
quantity: quantity ?? 1 }` plus presence checks for the four optional
fields. -/
def issue_consumption_attestation (args : Args) : Request :=
  let q := getArg args "quantity"
  let b0 : List (String × JsValue) :=
    [("passport_id", getArg args "passport_id"),
     ("gate_id", getArg args "gate_id"),
     ("action", getArg args "action"),
     ("outcome", getArg args "outcome"),
     ("quantity", if jsNullish q then .num 1 else q)]
  let b1 :=
    if isUndef (getArg args "agent_pop") then b0
    else b0 ++ [("agent_pop", getArg args "agent_pop")]
  let b2 :=
    if isUndef (getArg args "request_payload_hash") then b1
    else b1 ++ [("request_payload_hash", getArg args "request_payload_hash")]
  let b3 :=
    if isUndef (getArg args "response_payload_hash") then b2
    else b2 ++ [("response_payload_hash", getArg args "response_payload_hash")]
  let b4 :=
    if isUndef (getArg args "metadata") then b3
    else b3 ++ [("metadata", getArg args "metadata")]
  ⟨.POST, "/api/consume", [], some (.obj b4)⟩

/-- Source: `body = { gate_id, period_type, period_start, period_end }` plus a
presence check for `agent_id`. -/
def generate_settlement (args : Args) : Request :=
  let b0 : List (String × JsValue) :=
    [("gate_id", getArg args "gate_id"),
     ("period_type", getArg args "period_type"),
     ("period_start", getArg args "period_start"),
     ("period_end", getArg args "period_end")]
  let b1 :=
    if isUndef (getArg args "agent_id") then b0
    else b0 ++ [("agent_id", getArg args "agent_id")]
  ⟨.POST, "/api/billing", [], some (.obj b1)⟩

/-- Source: `api.get('/api/billing', { gate_id, agent_id, period_type, status,
from: from_date, to: to_date, limit, offset })`: the date filters are
renamed onto the wire. -/
def list_settlements (args : Args) : Request :=
  ⟨.GET, "/api/billing",
    buildQuery
      [("gate_id", getArg args "gate_id"),
       ("agent_id", getArg args "agent_id"),
       ("period_type", getArg args "period_type"),
       ("status", getArg args "status"),
       ("from", getArg args "from_date"),
       ("to", getArg args "to_date"),
       ("limit", getArg args "limit"),
       ("offset", getArg args "offset")],
    none⟩

/-- Source: `api.get('/api/billing/' + settlement_id)`. -/
def get_settlement (args : Args) : Request :=
  ⟨.GET, "/api/billing/" ++ jsString (getArg args "settlement_id"),
    [], none⟩

/-- Source: `api.post('/api/billing/' + settlement_id + '/status', { status })`. -/
def update_settlement_status (args : Args) : Request :=
  ⟨.POST,
    "/api/billing/" ++ jsString (getArg args "settlement_id") ++ "/status",
    [], some (.obj [("status", getArg args "status")])⟩

/-- Source: `api.get(path, { period_start, period_end, permission_key })`. -/
def get_sla_compliance (args : Args) : Request :=
  ⟨.GET, "/api/gates/" ++ jsString (getArg args "gate_id") ++ "/sla",
    buildQuery
      [("period_start", getArg args "period_start"),
       ("period_end", getArg args "period_end"),
       ("permission_key", getArg args "permission_key")],
    none⟩

/-! ## API-key translators (src/tools/api-keys.ts) -/

/-- Source: `api.get('/api/users/api-keys')`. -/
def list_api_keys (_ : Args) : Request :=
  ⟨.GET, "/api/users/api-keys", [], none⟩

/-- Source: `body = { name }` plus a presence check for `scopes`. -/
def create_api_key (args : Args) : Request :=
  let b0 : List (String × JsValue) := [("name", getArg args "name")]
  let b1 :=
    if isUndef (getArg args "scopes") then b0
    else b0 ++ [("scopes", getArg args "scopes")]
  ⟨.POST, "/api/users/api-keys", [], some (.obj b1)⟩

/-- Source: `api.delete('/api/users/api-keys/' + key_id)`. -/
def revoke_api_key (args : Args) : Request :=
  ⟨.DELETE, "/api/users/api-keys/" ++ jsString (getArg args "key_id"),
    [], none⟩

/-! ## Dispatch table and catalog (src/tools/index.ts) -/

/-- The handler table built by spreading the per-module handler records,
in registration order (gates, passports, attestations, catalogs, check,
constraints, enforcement, anonymous, state, commerce, api-keys). -/
def allHandlers : List (String × (Args → Request)) :=
  [("list_gates", list_gates),
   ("get_gate", get_gate),
   ("create_gate", create_gate),
   ("update_gate", update_gate),
   ("delete_gate", delete_gate),
   ("list_passports", list_passports),
   ("get_passport", get_passport),
   ("issue_passport", issue_passport),
   ("revoke_passport", revoke_passport),
   ("reissue_passport", reissue_passport),
   ("list_attestations", list_attestations),
   ("record_attestation", record_attestation),
   ("get_catalog", get_catalog),
   ("create_catalog", create_catalog),
   ("publish_catalog", publish_catalog),
   ("list_catalog_versions", list_catalog_versions),
   ("get_catalog_version", get_catalog_version),
   ("get_catalog_impact", get_catalog_impact),
   ("check_gate", check_gate),
   ("authorize_dry_run", authorize_dry_run),
   ("get_constraints", get_constraints),
   ("set_constraints", set_constraints),
   ("list_constraint_types", list_constraint_types),
   ("list_constraint_templates", list_constraint_templates),
   ("apply_constraint_template", apply_constraint_template),
   ("create_constraint_template", create_constraint_template),
   ("enforce_action", enforce_action),
   ("list_enforcement_attestations", list_enforcement_attestations),
   ("get_enforcement_attestation", get_enforcement_attestation),
   ("verify_enforcement_attestation", verify_enforcement_attestation),
   ("get_anonymous_policy", get_anonymous_policy),
   ("set_anonymous_policy", set_anonymous_policy),
   ("get_anonymous_log", get_anonymous_log),
   ("get_cumulative_state", get_cumulative_state),
   ("reset_cumulative_state", reset_cumulative_state),
   ("discover_services", discover_services),
   ("issue_consumption_attestation", issue_consumption_attestation),
   ("generate_settlement", generate_settlement),
   ("list_settlements", list_settlements),
   ("get_settlement", get_settlement),
   ("update_settlement_status", update_settlement_status),
   ("get_sla_compliance", get_sla_compliance),
   ("list_api_keys", list_api_keys),
   ("create_api_key", create_api_key),
   ("revoke_api_key", revoke_api_key)]

/-- The names advertised by `allTools`: the `name` fields of the
per-module tool descriptor arrays, concatenated in registration order
(gates, passports, attestations, catalogs, check, constraints,
enforcement, anonymous, state, commerce, api-keys). -/
def allToolNames : List String :=
  ["list_gates", "get_gate", "create_gate", "update_gate", "delete_gate",
   "list_passports", "get_passport", "issue_passport", "revoke_passport",
   "reissue_passport",
   "list_attestations", "record_attestation",
   "get_catalog", "create_catalog", "publish_catalog",
   "list_catalog_versions", "get_catalog_version", "get_catalog_impact",
   "check_gate", "authorize_dry_run",
   "get_constraints", "set_constraints", "list_constraint_types",
   "list_constraint_templates", "apply_constraint_template",
   "create_constraint_template",
   "enforce_action", "list_enforcement_attestations",
   "get_enforcement_attestation", "verify_enforcement_attestation",
   "get_anonymous_policy", "set_anonymous_policy", "get_anonymous_log",
   "get_cumulative_state", "reset_cumulative_state",
   "discover_services", "issue_consumption_attestation",
   "generate_settlement", "list_settlements", "get_settlement",
   "update_settlement_status", "get_sla_compliance",
   "list_api_keys", "create_api_key", "revoke_api_key"]

/-- The property names a plain JavaScript object literal inherits from
`Object.prototype`: reading `allHandlers[name]` for one of these yields
the inherited member (a function, or the prototype object for
`__proto__`), which is truthy. -/
def objectPrototypeMembers : List String :=
  ["constructor", "hasOwnProperty", "isPrototypeOf", "propertyIsEnumerable",
   "toLocaleString", "toString", "valueOf", "__defineGetter__",
   "__defineSetter__", "__lookupGetter__", "__lookupSetter__", "__proto__"]

/-- Result of one dispatch: the translated request of the resolved
handler; the unknown-tool error thrown when `allHandlers[name]` is
`undefined`; or the case where the property read finds a truthy member
inherited from `Object.prototype`, so the `if (!handler)` guard passes
and that inherited member is invoked in place of a translator (yielding
a string for `toString`, a `TypeError` for `__proto__`, and so on —
never a translated request and never the unknown-tool error). -/
inductive DispatchResult where
  | ok (r : Request)
  | unknownTool (msg : String)
  | inheritedMember (name : String)

/-- Source: `handleToolCall`: `const handler = allHandlers[name]` is a
JavaScript property read — an own key resolves to its translator, a name
inherited from `Object.prototype` resolves to the inherited (truthy)
member so the `if (!handler)` guard does not fire, and only a name that
is neither yields `undefined` and the thrown `Unknown tool: <name>`. -/
def handleToolCall (name : String) (args : Args) : DispatchResult :=
  match allHandlers.lookup name with
  | some h => .ok (h args)
  | none =>
    if name ∈ objectPrototypeMembers then .inheritedMember name
    else .unknownTool ("Unknown tool: " ++ name)

/-- The network calls a dispatch performs: every resolved translator
issues exactly one HTTP request through `ApiClient`; an unknown name
issues none, and an invoked `Object.prototype` member performs no
`fetch` either (it returns a plain value or throws a `TypeError`). -/
def networkCalls (name : String) (args : Args) : List Request :=
  match handleToolCall name args with
  | .unknownTool _ => []
  | .inheritedMember _ => []
  | .ok r => [r]

/-- The argument fields each operation's path template consumes, read off
the path interpolations of the corresponding handler. -/
def pathFields : String → List String
  | "get_gate" => ["gate_id"]
  | "update_gate" => ["gate_id"]
  | "delete_gate" => ["gate_id"]
  | "list_passports" => ["gate_id"]
  | "get_passport" => ["gate_id", "passport_id"]
  | "issue_passport" => ["gate_id"]
  | "revoke_passport" => ["gate_id", "passport_id"]
  | "reissue_passport" => ["passport_id"]
  | "list_attestations" => ["gate_id"]
  | "record_attestation" => ["gate_id"]
  | "get_catalog" => ["gate_id"]
  | "create_catalog" => ["gate_id"]
  | "publish_catalog" => ["gate_id"]
  | "list_catalog_versions" => ["gate_id"]
  | "get_catalog_version" => ["gate_id", "version"]
  | "get_catalog_impact" => ["gate_id"]
  | "check_gate" => ["gate_id"]
  | "get_constraints" => ["passport_id"]
  | "set_constraints" => ["passport_id"]
  | "apply_constraint_template" => ["passport_id"]
  | "list_enforcement_attestations" => ["passport_id"]
  | "get_enforcement_attestation" => ["attestation_id"]
  | "verify_enforcement_attestation" => ["attestation_id"]
  | "get_anonymous_policy" => ["gate_id"]
  | "set_anonymous_policy" => ["gate_id"]
  | "get_anonymous_log" => ["gate_id"]
  | "get_cumulative_state" => ["passport_id"]
  | "reset_cumulative_state" => ["passport_id"]
  | "get_settlement" => ["settlement_id"]
  | "update_settlement_status" => ["settlement_id"]
  | "get_sla_compliance" => ["gate_id"]
  | "revoke_api_key" => ["key_id"]
  | _ => []

/-- The optional argument fields each operation declares: the properties
of its `inputSchema` that are not listed in `required`, copied from the
canonical tool descriptors. -/
def toolOptionalFields : String → List String
  | "create_gate" => ["description", "allow_self_issued"]
  | "update_gate" => ["name", "description", "profile", "allow_self_issued"]
  | "issue_passport" =>
    ["agent_name", "agent_public_key", "constraints", "expires_in_seconds",
     "expires_in", "metadata"]
  | "reissue_passport" => ["accept_catalog_version"]
  | "list_attestations" =>
    ["passport_id", "agent_id", "permission", "since", "limit"]
  | "record_attestation" =>
    ["denial_code", "input_hash", "output_hash", "constraints_used",
     "execution_ms", "metadata"]
  | "create_catalog" => ["version", "catalog_name", "description", "is_active"]
  | "publish_catalog" => ["change_summary", "effective_at"]
  | "check_gate" => ["passport_id", "target"]
  | "authorize_dry_run" => ["requested_constraints"]
  | "list_constraint_types" => ["category"]
  | "list_constraint_templates" => ["category"]
  | "create_constraint_template" => ["description", "category"]
  | "enforce_action" => ["target", "cost_cents", "metadata"]
  | "list_enforcement_attestations" => ["decision", "limit"]
  | "set_anonymous_policy" =>
    ["enabled", "allowed_actions", "blocked_actions", "rate_limit_per_minute",
     "rate_limit_per_hour", "read_only", "upgrade_message", "upgrade_url"]
  | "reset_cumulative_state" => ["window_type"]
  | "discover_services" =>
    ["max_price_cents", "min_uptime_bp", "max_response_time_ms",
     "pricing_model", "sort", "limit", "offset"]
  | "issue_consumption_attestation" =>
    ["quantity", "agent_pop", "request_payload_hash", "response_payload_hash",
     "metadata"]
  | "generate_settlement" => ["agent_id"]
  | "list_settlements" =>
    ["gate_id", "agent_id", "period_type", "status", "from_date", "to_date",
     "limit", "offset"]
  | "get_sla_compliance" => ["permission_key"]
  | "create_api_key" => ["scopes"]
  | _ => []

/-! ## Response classification (ApiClient.request) -/

/-- An HTTP response as the transport sees it: status, status text, and
the JSON parse of the body (`none` when the body is not valid JSON). -/
structure HttpResponse where
  status : Nat
  statusText : String
  bodyJson : Option JsValue

/-- Source: `response.ok`: status in the 2xx range. -/
def respOk (r : HttpResponse) : Bool :=
  200 ≤ r.status && r.status < 300

/-- Reading `error.message` / `error.error` from the parsed error body:
property access on `null` throws (caught by the surrounding `catch`),
property access on any other non-object yields `undefined`. -/
def getField (v : JsValue) (k : String) : JsValue :=
  match v with
  | .obj fs => (fs.lookup k).getD (.undef : JsValue)
  | _ => (.undef : JsValue)

/-- The message of the `Error` thrown for a non-2xx response:
`error.message || error.error || 'API error: <status>'` when the body
parses as JSON (a `null` body throws on property access and falls into
the catch), else the catch's `'API error: <status> <statusText>'`. -/
def errorMessage (r : HttpResponse) : String :=
  match r.bodyJson with
  | none => "API error: " ++ toString r.status ++ " " ++ r.statusText
  | some .jnull => "API error: " ++ toString r.status ++ " " ++ r.statusText
  | some v =>
    let m := getField v "message"
    if jsTruthy m then jsString m
    else
      let e := getField v "error"
      if jsTruthy e then jsString e
      else "API error: " ++ toString r.status

/-- Outcome of `ApiClient.request` after the response arrives. -/
inductive Outcome where
  | success (v : JsValue)
  | apiError (msg : String)
  | jsonParseError

/-- Response handling in `ApiClient.request`: non-2xx throws the
classified error; 204 yields `{}`; any other 2xx parses the body as JSON
and propagates a parse failure as the raw exception. -/
def handleResponse (r : HttpResponse) : Outcome :=
  if respOk r then
    if r.status = 204 then .success (.obj [])
    else
      match r.bodyJson with
      | some v => .success v
      | none => .jsonParseError
  else .apiError (errorMessage r)

/-! ## Association-list lemmas -/

theorem lookup_eq_none_of_not_mem {β : Type} {l : List (String × β)}
    {k : String} (h : k ∉ l.map Prod.fst) : l.lookup k = none := by
  induction l with
  | nil => rfl
  | cons p ps ih =>
    simp only [List.map_cons, List.mem_cons, not_or] at h
    have hk : (k == p.1) = false := by
      simp only [beq_eq_false_iff_ne, ne_eq]
      exact h.1
    simp only [List.lookup, hk]
    exact ih h.2

theorem getArg_of_not_mem {args : Args} {k : String}
    (h : k ∉ args.map Prod.fst) : getArg args k = .undef := by
  simp [getArg, lookup_eq_none_of_not_mem h]

theorem lookup_append_some {β : Type} {l1 l2 : List (String × β)}
    {k : String} {v : β} (h : l1.lookup k = some v) :
    (l1 ++ l2).lookup k = some v := by
  induction l1 with
  | nil => simp [List.lookup] at h
  | cons p ps ih =>
    rcases p with ⟨a, b⟩
    simp only [List.lookup, List.cons_append] at h ⊢
    cases hk : (k == a) with
    | true => rw [hk] at h; simpa [hk] using h
    | false => rw [hk] at h; simpa [hk] using ih h

theorem lookup_filter_of_unique {β : Type} {l : List (String × β)}
    {p : String × β → Bool} {k : String} {v : β}
    (hm : (k, v) ∈ l) (hp : p (k, v) = true)
    (huniq : ∀ w, (k, w) ∈ l → w = v) :
    (l.filter p).lookup k = some v := by
  induction l with
  | nil => cases hm
  | cons a as ih =>
    rcases a with ⟨a1, a2⟩
    by_cases ha : a1 = k
    · subst ha
      have hv2 : a2 = v := huniq a2 (List.mem_cons_self _ _)
      subst hv2
      rw [List.filter_cons, if_pos hp]
      simp [List.lookup]
    · have hm' : (k, v) ∈ as := by
        rcases List.mem_cons.mp hm with he | ht
        · cases he; exact absurd rfl ha
        · exact ht
      have huniq' : ∀ w, (k, w) ∈ as → w = v := fun w hw =>
        huniq w (List.mem_cons_of_mem _ hw)
      rw [List.filter_cons]
      split
      · have hk : (k == a1) = false := by
          simp only [beq_eq_false_iff_ne, ne_eq]
          exact fun he => ha he.symm
        simp only [List.lookup, hk]
        exact ih hm' huniq'
      · exact ih hm' huniq'

theorem pair_unique_of_nodup_keys {β : Type} {l : List (String × β)}
    (hn : (l.map Prod.fst).Nodup) {k : String} {v w : β}
    (h1 : (k, v) ∈ l) (h2 : (k, w) ∈ l) : v = w := by
  induction l with
  | nil => cases h1
  | cons a as ih =>
    rcases a with ⟨a1, a2⟩
    simp only [List.map_cons, List.nodup_cons] at hn
    rcases List.mem_cons.mp h1 with he1 | ht1 <;>
      rcases List.mem_cons.mp h2 with he2 | ht2
    · cases he1; cases he2; rfl
    · cases he1
      exact absurd (List.mem_map.mpr ⟨(k, w), ht2, rfl⟩) hn.1
    · cases he2
      exact absurd (List.mem_map.mpr ⟨(k, v), ht1, rfl⟩) hn.1
    · exact ih hn.2 ht1 ht2

theorem mem_keys_removeKey {args : Args} {k f : String}
    (h : f ∈ (removeKey args k).map Prod.fst) :
    f ∈ args.map Prod.fst ∧ f ≠ k := by
  simp only [removeKey, List.mem_map] at h
  obtain ⟨p, hp, rfl⟩ := h
  have hp' := List.mem_filter.mp hp
  refine ⟨List.mem_map.mpr ⟨p, hp'.1, rfl⟩, ?_⟩
  have := hp'.2
  simpa [bne] using this

theorem mem_ite_append {β : Type} {x : β} {l e : List β} {c : Prop}
    [Decidable c] (h : x ∈ l) : x ∈ (if c then l else l ++ e) := by
  split
  · exact h
  · exact List.mem_append_left _ h

theorem mem_of_mem_ite_append {β : Type} {x : β} {l e : List β} {c : Prop}
    [Decidable c] (h : x ∈ (if c then l else l ++ e)) : x ∈ l ∨ x ∈ e := by
  split at h
  · exact Or.inl h
  · exact List.mem_append.mp h

theorem ite_append_eq {β : Type} {c : Prop} [Decidable c]
    (l e : List β) : (if c then l else l ++ e) = l ++ (if c then [] else e) := by
  split <;> simp

/-! ## Query-construction lemmas -/

theorem setParam_of_not_mem (l : List (String × String)) (k v : String)
    (h : k ∉ l.map Prod.fst) : setParam l k v = l ++ [(k, v)] := by
  have ha : (l.any fun p => p.1 == k) = false := by
    rw [List.any_eq_false]
    intro p hp
    simp only [beq_eq_false_iff_ne, ne_eq, Bool.not_eq_true]
    intro he
    exact h (List.mem_map.mpr ⟨p, hp, he⟩)
  simp [setParam, ha]

theorem mem_setParam_self (l : List (String × String)) (k v : String) :
    (k, v) ∈ setParam l k v := by
  unfold setParam
  split
  · next h =>
    rw [List.any_eq_true] at h
    obtain ⟨p, hp, he⟩ := h
    exact List.mem_map.mpr ⟨p, hp, by simp [he]⟩
  · simp

theorem mem_setParam_of_ne {k' v' : String} (l : List (String × String))
    (k v : String) (hne : k' ≠ k) (hm : (k', v') ∈ l) :
    (k', v') ∈ setParam l k v := by
  unfold setParam
  split
  · refine List.mem_map.mpr ⟨(k', v'), hm, ?_⟩
    have : ((k', v').1 == k) = false := by
      simp only [beq_eq_false_iff_ne, ne_eq]
      exact hne
    simp [this]
  · exact List.mem_append_left _ hm

theorem keys_setParam_sub {f : String} {l : List (String × String)}
    {k v : String} (h : f ∈ (setParam l k v).map Prod.fst) :
    f = k ∨ f ∈ l.map Prod.fst := by
  unfold setParam at h
  split at h
  · rw [List.map_map] at h
    simp only [List.mem_map, Function.comp] at h
    obtain ⟨p, hp, he⟩ := h
    by_cases hk : (p.1 == k) = true
    · left; rw [← he]; simp [hk]
    · right
      simp only [Bool.not_eq_true] at hk
      rw [← he]
      simp only [hk, Bool.false_eq_true, if_false]
      exact List.mem_map.mpr ⟨p, hp, rfl⟩
  · rw [List.map_append, List.mem_append] at h
    rcases h with h | h
    · exact Or.inr h
    · left; simpa using h

theorem buildQuery_aux (ps : List (String × JsValue)) :
    ∀ acc : List (String × String),
      (∀ k, k ∈ ps.map Prod.fst → k ∉ acc.map Prod.fst) →
      (ps.map Prod.fst).Nodup →
      (ps.foldl
          (fun acc p =>
            if isUndef p.2 then acc else setParam acc p.1 (jsString p.2))
          acc)
        = acc ++ ps.filterMap
            (fun p =>
              if isUndef p.2 then none else some (p.1, jsString p.2)) := by
  induction ps with
  | nil => intro acc _ _; simp
  | cons p ps ih =>
    intro acc hd hn
    rcases p with ⟨k, v⟩
    simp only [List.map_cons, List.nodup_cons] at hn
    by_cases hu : isUndef v = true
    · simp only [List.foldl_cons, List.filterMap_cons, hu, if_true]
      exact ih acc (fun k' hk' => hd k' (by simp [hk'])) hn.2
    · simp only [Bool.not_eq_true] at hu
      simp only [List.foldl_cons, List.filterMap_cons, hu, if_false,
        Bool.false_eq_true]
      rw [setParam_of_not_mem _ _ _ (hd k (by simp))]
      rw [ih (acc ++ [(k, jsString v)]) ?_ hn.2]
      · simp
      · intro k' hk'
        simp only [List.map_append, List.mem_append, List.map_cons,
          List.map_nil, List.mem_singleton, not_or]
        refine ⟨hd k' (by simp [hk']), ?_⟩
        intro he
        subst he
        exact hn.1 hk'

theorem buildQuery_eq (ps : List (String × JsValue))
    (hn : (ps.map Prod.fst).Nodup) :
    buildQuery ps
      = ps.filterMap
          (fun p => if isUndef p.2 then none else some (p.1, jsString p.2)) := by
  simpa [buildQuery] using buildQuery_aux ps [] (by simp) hn

theorem mem_buildQuery {ps : List (String × JsValue)} {k : String}
    {v : JsValue} (hn : (ps.map Prod.fst).Nodup) (hm : (k, v) ∈ ps)
    (hv : isUndef v = false) : (k, jsString v) ∈ buildQuery ps := by
  rw [buildQuery_eq ps hn]
  exact List.mem_filterMap.mpr ⟨(k, v), hm, by simp [hv]⟩

theorem mem_keys_buildQuery {ps : List (String × JsValue)} {f : String}
    (hn : (ps.map Prod.fst).Nodup) :
    f ∈ (buildQuery ps).map Prod.fst ↔
      ∃ v, (f, v) ∈ ps ∧ isUndef v = false := by
  rw [buildQuery_eq ps hn]
  constructor
  · intro h
    simp only [List.mem_map] at h
    obtain ⟨q, hq, rfl⟩ := h
    rw [List.mem_filterMap] at hq
    obtain ⟨⟨a, b⟩, hab, he⟩ := hq
    by_cases hb : isUndef b = true
    · simp [hb] at he
    · simp only [Bool.not_eq_true] at hb
      simp only [hb, Bool.false_eq_true, if_false, Option.some.injEq] at he
      subst he
      exact ⟨b, hab, hb⟩
  · intro ⟨v, hm, hv⟩
    exact List.mem_map.mpr
      ⟨(f, jsString v), List.mem_filterMap.mpr ⟨(f, v), hm, by simp [hv]⟩, rfl⟩

theorem truthySet_falsy {l : List (String × String)} {k : String}
    {v : JsValue} (h : jsTruthy v = false) : truthySet l k v = l := by
  simp [truthySet, h]

theorem mem_truthySet_self {l : List (String × String)} {k : String}
    {v : JsValue} (h : jsTruthy v = true) :
    (k, jsString v) ∈ truthySet l k v := by
  simp only [truthySet, h, if_true]
  exact mem_setParam_self l k (jsString v)

theorem mem_truthySet_of_ne {l : List (String × String)} {k k' v' : String}
    {v : JsValue} (hne : k' ≠ k) (hm : (k', v') ∈ l) :
    (k', v') ∈ truthySet l k v := by
  unfold truthySet
  split
  · exact mem_setParam_of_ne l k (jsString v) hne hm
  · exact hm

theorem keys_truthySet_sub {f : String} {l : List (String × String)}
    {k : String} {v : JsValue}
    (h : f ∈ (truthySet l k v).map Prod.fst) :
    f = k ∨ f ∈ l.map Prod.fst := by
  unfold truthySet at h
  split at h
  · exact keys_setParam_sub h
  · exact Or.inr h

theorem keys_truthySet_cases {f : String} {l : List (String × String)}
    {k : String} {v : JsValue}
    (h : f ∈ (truthySet l k v).map Prod.fst) :
    (f = k ∧ jsTruthy v = true) ∨ f ∈ l.map Prod.fst := by
  unfold truthySet at h
  split at h
  · next ht =>
    rcases keys_setParam_sub h with he | hl
    · exact Or.inl ⟨he, ht⟩
    · exact Or.inr hl
  · exact Or.inr h

/-! ## Body lemmas -/

theorem bodyKeys_obj (m : Method) (p : String) (q : List (String × String))
    (l : List (String × JsValue)) :
    bodyKeys ⟨m, p, q, some (.obj l)⟩
      = (l.filter (fun x => !(isUndef x.2))).map Prod.fst := rfl

theorem mem_bodyKeys_obj {f : String} {m : Method} {p : String}
    {q : List (String × String)} {l : List (String × JsValue)} :
    f ∈ bodyKeys ⟨m, p, q, some (.obj l)⟩ ↔
      ∃ v, (f, v) ∈ l ∧ isUndef v = false := by
  rw [bodyKeys_obj]
  constructor
  · intro h
    simp only [List.mem_map] at h
    obtain ⟨x, hx, rfl⟩ := h
    have hx' := List.mem_filter.mp hx
    exact ⟨x.2, by simpa using hx'.1, by simpa using hx'.2⟩
  · intro ⟨v, hm, hv⟩
    exact List.mem_map.mpr
      ⟨(f, v), List.mem_filter.mpr ⟨hm, by simp [hv]⟩, rfl⟩

theorem bodyKeys_none (m : Method) (p : String)
    (q : List (String × String)) : bodyKeys ⟨m, p, q, none⟩ = [] := rfl

theorem keys_buildQuery_sub {ps : List (String × JsValue)} {f : String}
    (hn : (ps.map Prod.fst).Nodup)
    (h : f ∈ (buildQuery ps).map Prod.fst) : f ∈ ps.map Prod.fst := by
  obtain ⟨v, hm, _⟩ := (mem_keys_buildQuery hn).mp h
  exact List.mem_map.mpr ⟨(f, v), hm, rfl⟩

theorem mem_of_mem_ite_nil {β : Type} {x : β} {e : List β} {c : Prop}
    [Decidable c] (h : x ∈ (if c then ([] : List β) else e)) : x ∈ e := by
  split at h
  · cases h
  · exact h

theorem bodyField_obj (m : Method) (p : String) (q : List (String × String))
    (l : List (String × JsValue)) (f : String) :
    bodyField ⟨m, p, q, some (.obj l)⟩ f
      = (l.filter (fun x => !(isUndef x.2))).lookup f := rfl

/-- A field never reaches the wire body when every body entry carrying it
copies the (absent, hence `undefined`) argument value. -/
theorem not_mem_bodyKeys_of_entries {args : Args} {f : String} {m : Method}
    {p : String} {q : List (String × String)} {l : List (String × JsValue)}
    (hl : ∀ x ∈ l, x.1 = f → x.2 = getArg args f)
    (hundef : getArg args f = .undef) :
    f ∉ bodyKeys ⟨m, p, q, some (.obj l)⟩ := by
  intro hb
  obtain ⟨v, hv, hnu⟩ := mem_bodyKeys_obj.mp hb
  rw [show v = getArg args f from hl (f, v) hv rfl, hundef] at hnu
  simp [isUndef] at hnu

/-- A field is not a wire-body key when no body entry carries it. -/
theorem not_mem_bodyKeys_of_keys {f : String} {m : Method} {p : String}
    {q : List (String × String)} {l : List (String × JsValue)}
    (hl : ∀ x ∈ l, x.1 ≠ f) :
    f ∉ bodyKeys ⟨m, p, q, some (.obj l)⟩ := by
  intro hb
  obtain ⟨v, hv, _⟩ := mem_bodyKeys_obj.mp hb
  exact hl (f, v) hv rfl

theorem not_mem_keys_buildQuery_of_entries {args : Args} {f : String}
    {ps : List (String × JsValue)} (hn : (ps.map Prod.fst).Nodup)
    (hl : ∀ x ∈ ps, x.1 = f → x.2 = getArg args f)
    (hundef : getArg args f = .undef) :
    f ∉ (buildQuery ps).map Prod.fst := by
  intro h
  obtain ⟨v, hv, hnu⟩ := (mem_keys_buildQuery hn).mp h
  rw [show v = getArg args f from hl (f, v) hv rfl, hundef] at hnu
  simp [isUndef] at hnu

theorem not_mem_keys_buildQuery_of_keys {f : String}
    {ps : List (String × JsValue)} (hn : (ps.map Prod.fst).Nodup)
    (hl : ∀ x ∈ ps, x.1 ≠ f) :
    f ∉ (buildQuery ps).map Prod.fst := by
  intro h
  obtain ⟨v, hv, _⟩ := (mem_keys_buildQuery hn).mp h
  exact hl (f, v) hv rfl

theorem not_mem_bodyKeys_removeKey_self {args : Args} {k : String}
    {m : Method} {p : String} {q : List (String × String)} :
    k ∉ bodyKeys ⟨m, p, q, some (.obj (removeKey args k))⟩ := by
  intro h
  obtain ⟨v, hv, _⟩ := mem_bodyKeys_obj.mp h
  exact (mem_keys_removeKey (List.mem_map.mpr ⟨(k, v), hv, rfl⟩)).2 rfl

theorem not_mem_bodyKeys_removeKey_omitted {args : Args} {k f : String}
    {m : Method} {p : String} {q : List (String × String)}
    (hnot : f ∉ args.map Prod.fst) :
    f ∉ bodyKeys ⟨m, p, q, some (.obj (removeKey args k))⟩ := by
  intro h
  obtain ⟨v, hv, _⟩ := mem_bodyKeys_obj.mp h
  exact hnot (mem_keys_removeKey (List.mem_map.mpr ⟨(f, v), hv, rfl⟩)).1

theorem not_mem_bodyKeys_args_omitted {args : Args} {f : String}
    {m : Method} {p : String} {q : List (String × String)}
    (hnot : f ∉ args.map Prod.fst) :
    f ∉ bodyKeys ⟨m, p, q, some (.obj args)⟩ := by
  intro h
  obtain ⟨v, hv, _⟩ := mem_bodyKeys_obj.mp h
  exact hnot (List.mem_map.mpr ⟨(f, v), hv, rfl⟩)

theorem lookup_filter_append {β : Type} {p : String × β → Bool}
    {l1 l2 : List (String × β)} {k : String} {v : β}
    (h : (l1.filter p).lookup k = some v) :
    ((l1 ++ l2).filter p).lookup k = some v := by
  rw [List.filter_append]
  exact lookup_append_some h

theorem lookup_filter_ite_append {β : Type} {p : String × β → Bool}
    {l e : List (String × β)} {c : Prop} [Decidable c] {k : String} {v : β}
    (h : (l.filter p).lookup k = some v) :
    ((if c then l else l ++ e).filter p).lookup k = some v := by
  split
  · exact h
  · exact lookup_filter_append h

/-- The `quantity` field of the consumption-attestation body: whatever
the nullish-coalescing produced is what the wire body carries. -/
theorem consume_quantity_value (args : Args) (qv : JsValue)
    (hqv : (if jsNullish (getArg args "quantity") = true then JsValue.num 1
            else getArg args "quantity") = qv)
    (hnu : isUndef qv = false) :
    bodyField (issue_consumption_attestation args) "quantity" = some qv := by
  simp only [issue_consumption_attestation, bodyField_obj]
  rw [hqv]
  have hbase :
      (([("passport_id", getArg args "passport_id"),
         ("gate_id", getArg args "gate_id"),
         ("action", getArg args "action"),
         ("outcome", getArg args "outcome"),
         ("quantity", qv)].filter
          (fun x => !(isUndef x.2))).lookup "quantity") = some qv := by
    refine lookup_filter_of_unique (by simp) (by simp [hnu]) ?_
    intro w hw
    simp only [List.mem_cons, List.not_mem_nil, or_false,
      Prod.mk.injEq] at hw
    rcases hw with ⟨h1, _⟩ | ⟨h1, _⟩ | ⟨h1, _⟩ | ⟨h1, _⟩ | ⟨_, h2⟩
    · exact absurd h1 (by decide)
    · exact absurd h1 (by decide)
    · exact absurd h1 (by decide)
    · exact absurd h1 (by decide)
    · exact h2
  exact lookup_filter_ite_append (lookup_filter_ite_append
    (lookup_filter_ite_append (lookup_filter_ite_append hbase)))

theorem consume_quantity_default (args : Args)
    (h : "quantity" ∉ args.map Prod.fst) :
    bodyField (issue_consumption_attestation args) "quantity"
      = some (.num 1) := by
  have hq : getArg args "quantity" = .undef := getArg_of_not_mem h
  refine consume_quantity_value args (.num 1) ?_ rfl
  rw [hq]
  simp [jsNullish]

theorem consume_quantity_supplied (args : Args) (q : Int)
    (h : args.lookup "quantity" = some (.num q)) :
    bodyField (issue_consumption_attestation args) "quantity"
      = some (.num q) := by
  have hq : getArg args "quantity" = .num q := by simp [getArg, h]
  refine consume_quantity_value args (.num q) ?_ rfl
  rw [hq]
  simp [jsNullish]

/-! ## Claim theorems -/

/-- C2 counterexample: `"toString"` is not a key of the handler table,
yet `allHandlers["toString"]` finds the truthy function inherited from
`Object.prototype`, the `if (!handler)` guard passes, and the inherited
member is invoked — dispatch does not fail with the unknown-operation
error the claim requires. -/
theorem prototype_member_dispatch_not_unknown :
    "toString" ∉ allHandlers.map Prod.fst ∧
      handleToolCall "toString" [] = .inheritedMember "toString" ∧
      handleToolCall "toString" []
        ≠ .unknownTool ("Unknown tool: " ++ "toString") := by
  refine ⟨by decide, rfl, ?_⟩
  intro h
  rw [show handleToolCall "toString" [] = .inheritedMember "toString"
    from rfl] at h
  exact DispatchResult.noConfusion h

/-- C2 (amended): dispatching a name that is absent from the handler
table and is not an `Object.prototype` member name fails with an error
naming the unknown operation, issues zero network calls, and does so
uniformly in the argument record, before any translator can run; for a
table-absent `Object.prototype` member name the truthiness guard passes
and the inherited member is invoked in place of a translator — still
with zero network calls, but without the unknown-operation error. -/
theorem unknown_tool_fails_fast :
    (∀ name : String, name ∉ allHandlers.map Prod.fst →
        name ∉ objectPrototypeMembers →
        ∀ args : Args,
          handleToolCall name args
              = .unknownTool ("Unknown tool: " ++ name) ∧
            networkCalls name args = []) ∧
      ∀ name : String, name ∉ allHandlers.map Prod.fst →
        name ∈ objectPrototypeMembers →
        ∀ args : Args,
          handleToolCall name args = .inheritedMember name ∧
            networkCalls name args = [] := by
  constructor
  · intro name h hp args
    have hl : allHandlers.lookup name = none := lookup_eq_none_of_not_mem h
    exact ⟨by simp [handleToolCall, hl, hp],
      by simp [networkCalls, handleToolCall, hl, hp]⟩
  · intro name h hp args
    have hl : allHandlers.lookup name = none := lookup_eq_none_of_not_mem h
    exact ⟨by simp [handleToolCall, hl, hp],
      by simp [networkCalls, handleToolCall, hl, hp]⟩

theorem unknown_tool_fails_fast_witness :
    (handleToolCall "nonexistent_tool" []
          = .unknownTool ("Unknown tool: " ++ "nonexistent_tool") ∧
        networkCalls "nonexistent_tool" [] = []) ∧
      handleToolCall "toString" [] = .inheritedMember "toString" ∧
        networkCalls "toString" [] = [] :=
  ⟨unknown_tool_fails_fast.1 "nonexistent_tool" (by decide) (by decide) [],
   unknown_tool_fails_fast.2 "toString" (by decide) (by decide) []⟩

/-- C3: a non-2xx response raises a classified API error; the message
equals the error body's `message` field when the body parses as JSON with
a non-empty message, and is the generic status-code/status-text message
when the body is not valid JSON; a JSON parse failure of the error body
is never propagated as a parse exception. -/
theorem error_response_message_classification (r : HttpResponse)
    (h : respOk r = false) :
    (∀ fs m, r.bodyJson = some (.obj fs) →
        fs.lookup "message" = some (.str m) → m ≠ "" →
        handleResponse r = .apiError m) ∧
      (r.bodyJson = none →
        handleResponse r = .apiError
          ("API error: " ++ toString r.status ++ " " ++ r.statusText)) ∧
      handleResponse r ≠ .jsonParseError := by
  refine ⟨?_, ?_, ?_⟩
  · intro fs m hb hm hne
    simp only [handleResponse, h, Bool.false_eq_true, if_false]
    have ht : jsTruthy (JsValue.str m) = true := by simpa [jsTruthy] using hne
    simp [errorMessage, hb, getField, hm, ht, jsString]
  · intro hb
    simp only [handleResponse, h, Bool.false_eq_true, if_false]
    simp [errorMessage, hb]
  · simp [handleResponse, h]

theorem error_response_message_classification_witness :
    handleResponse
        ⟨401, "Unauthorized",
          some (.obj [("message", .str "Invalid API key")])⟩
        = .apiError "Invalid API key" ∧
      handleResponse ⟨500, "Error", none⟩
        = .apiError ("API error: " ++ toString 500 ++ " " ++ "Error") :=
  ⟨(error_response_message_classification
        ⟨401, "Unauthorized",
          some (.obj [("message", .str "Invalid API key")])⟩ rfl).1
      [("message", .str "Invalid API key")] "Invalid API key" rfl rfl
      (by decide),
   (error_response_message_classification ⟨500, "Error", none⟩ rfl).2.1 rfl⟩

/-- C7: `list_settlements` puts the caller-facing `from_date` / `to_date`
filters on the wire under the names `from` / `to`, and the caller-facing
names never appear as query keys. -/
theorem settlement_date_renaming :
    (∀ args : Args, isUndef (getArg args "from_date") = false →
        ("from", jsString (getArg args "from_date"))
          ∈ (list_settlements args).query) ∧
      (∀ args : Args, isUndef (getArg args "to_date") = false →
        ("to", jsString (getArg args "to_date"))
          ∈ (list_settlements args).query) ∧
      ∀ args : Args, "from_date" ∉ queryKeys (list_settlements args) ∧
        "to_date" ∉ queryKeys (list_settlements args) := by
  refine ⟨?_, ?_, ?_⟩
  · intro args hv
    refine mem_buildQuery ?_ (by simp) hv
    simp only [List.map_cons, List.map_nil]
    decide
  · intro args hv
    refine mem_buildQuery ?_ (by simp) hv
    simp only [List.map_cons, List.map_nil]
    decide
  · intro args
    constructor <;> intro hmem
    · have hs := keys_buildQuery_sub ?_ hmem
      · simp only [List.map_cons, List.map_nil] at hs
        exact absurd hs (by decide)
      · simp only [List.map_cons, List.map_nil]
        decide
    · have hs := keys_buildQuery_sub ?_ hmem
      · simp only [List.map_cons, List.map_nil] at hs
        exact absurd hs (by decide)
      · simp only [List.map_cons, List.map_nil]
        decide

theorem settlement_date_renaming_witness :
    ("from", jsString (getArg [("from_date", .str "2024-01-01")] "from_date"))
      ∈ (list_settlements [("from_date", .str "2024-01-01")]).query :=
  settlement_date_renaming.1 [("from_date", .str "2024-01-01")] rfl

/-- C8: the advertised catalog lists exactly 45 operation names, every
advertised name resolves in the handler table, and dispatching an
advertised name never produces the unknown-operation error. -/
theorem catalog_handler_totality :
    allToolNames.length = 45 ∧
      (∀ n ∈ allToolNames, (allHandlers.lookup n).isSome = true) ∧
      ∀ n, n ∈ allToolNames → ∀ (args : Args) (msg : String),
        handleToolCall n args ≠ .unknownTool msg := by
  have hall : ∀ n ∈ allToolNames, (allHandlers.lookup n).isSome = true := by
    decide
  refine ⟨by decide, hall, ?_⟩
  intro n hn args msg hcontra
  have h2 := hall n hn
  cases hh : allHandlers.lookup n with
  | none => rw [hh] at h2; simp at h2
  | some hdl => simp [handleToolCall, hh] at hcontra

theorem catalog_handler_totality_witness :
    (allHandlers.lookup "reissue_passport").isSome = true ∧
      ∀ msg, handleToolCall "reissue_passport" [] ≠ .unknownTool msg :=
  ⟨catalog_handler_totality.2.1 "reissue_passport" (by decide),
   fun msg =>
    catalog_handler_totality.2.2 "reissue_passport" (by decide) [] msg⟩

/-- C9: the transport's query construction keeps a key bound to `null`
and serializes it as the literal string `"null"`; a present key is
included (stringified) whenever its value is not `undefined`, and only
`undefined`-bound keys are filtered out. -/
theorem null_param_serialized (ps : List (String × JsValue)) (k : String)
    (hn : (ps.map Prod.fst).Nodup) :
    ((k, .jnull) ∈ ps → (k, "null") ∈ buildQuery ps) ∧
      (∀ v, (k, v) ∈ ps → isUndef v = false →
        (k, jsString v) ∈ buildQuery ps) ∧
      ∀ v, (k, v) ∈ ps → isUndef v = true →
        k ∉ (buildQuery ps).map Prod.fst := by
  refine ⟨?_, ?_, ?_⟩
  · intro hm
    exact mem_buildQuery hn hm rfl
  · intro v hm hv
    exact mem_buildQuery hn hm hv
  · intro v hm hv hmem
    obtain ⟨w, hw, hwu⟩ := (mem_keys_buildQuery hn).mp hmem
    have hvw := pair_unique_of_nodup_keys hn hw hm
    rw [hvw] at hwu
    rw [hv] at hwu
    cases hwu

theorem null_param_serialized_witness :
    ("a", "null")
        ∈ buildQuery [("a", JsValue.jnull), ("b", JsValue.undef)] ∧
      "b" ∉ (buildQuery [("a", JsValue.jnull), ("b", JsValue.undef)]).map
          Prod.fst :=
  ⟨(null_param_serialized [("a", JsValue.jnull), ("b", JsValue.undef)] "a"
        (by decide)).1 (by simp),
   (null_param_serialized [("a", JsValue.jnull), ("b", JsValue.undef)] "b"
        (by decide)).2.2 .undef (by simp) rfl⟩

/-- Shared workhorse for the omitted-field claims: an argument field that
an operation declares as optional and that is absent from the argument
record reaches the wire body or query only in the single case of the
consumption-attestation `quantity` default. -/
theorem omitted_field_dichotomy :
    ∀ op hdl, (op, hdl) ∈ allHandlers → ∀ (args : Args) (f : String),
      f ∈ toolOptionalFields op → f ∉ args.map Prod.fst →
      (f ∈ bodyKeys (hdl args) ∨ f ∈ queryKeys (hdl args)) →
      op = "issue_consumption_attestation" ∧ f = "quantity" := by
  intro op hdl hmem args f hf hnot hw
  have hundef : getArg args f = JsValue.undef := getArg_of_not_mem hnot
  simp only [allHandlers, List.mem_cons, Prod.mk.injEq] at hmem
  -- list_gates
  rcases hmem with ⟨rfl, rfl⟩ | hmem
  · exact absurd hf (List.not_mem_nil f)
  -- get_gate
  rcases hmem with ⟨rfl, rfl⟩ | hmem
  · exact absurd hf (List.not_mem_nil f)
  -- create_gate
  rcases hmem with ⟨rfl, rfl⟩ | hmem
  · exfalso
    rcases hw with hb | hq
    · simp only [create_gate] at hb
      refine not_mem_bodyKeys_of_entries ?_ hundef hb
      intro x hx hxf
      simp only [List.mem_cons, List.not_mem_nil, or_false] at hx
      rcases hx with rfl | rfl | rfl | rfl | rfl <;> rw [← hxf]
    · simp [create_gate, queryKeys] at hq
  -- update_gate
  rcases hmem with ⟨rfl, rfl⟩ | hmem
  · exfalso
    rcases hw with hb | hq
    · simp only [update_gate] at hb
      exact not_mem_bodyKeys_removeKey_omitted hnot hb
    · simp [update_gate, queryKeys] at hq
  -- delete_gate
  rcases hmem with ⟨rfl, rfl⟩ | hmem
  · exact absurd hf (List.not_mem_nil f)
  -- list_passports
  rcases hmem with ⟨rfl, rfl⟩ | hmem
  · exact absurd hf (List.not_mem_nil f)
  -- get_passport
  rcases hmem with ⟨rfl, rfl⟩ | hmem
  · exact absurd hf (List.not_mem_nil f)
  -- issue_passport
  rcases hmem with ⟨rfl, rfl⟩ | hmem
  · exfalso
    rcases hw with hb | hq
    · simp only [issue_passport] at hb
      exact not_mem_bodyKeys_removeKey_omitted hnot hb
    · simp [issue_passport, queryKeys] at hq
  -- revoke_passport
  rcases hmem with ⟨rfl, rfl⟩ | hmem
  · exact absurd hf (List.not_mem_nil f)
  -- reissue_passport
  rcases hmem with ⟨rfl, rfl⟩ | hmem
  · exfalso
    rcases hw with hb | hq
    · simp only [reissue_passport] at hb
      refine not_mem_bodyKeys_of_entries ?_ hundef hb
      intro x hx hxf
      have hx2 := mem_of_mem_ite_nil hx
      simp only [List.mem_cons, List.not_mem_nil, or_false] at hx2
      subst hx2
      rw [← hxf]
    · simp [reissue_passport, queryKeys] at hq
  -- list_attestations
  rcases hmem with ⟨rfl, rfl⟩ | hmem
  · exfalso
    rcases hw with hb | hq
    · simp [list_attestations, bodyKeys, wireBody] at hb
    · simp only [list_attestations, queryKeys] at hq
      rcases keys_truthySet_cases hq with ⟨rfl, ht⟩ | h4
      · rw [hundef] at ht; simp [jsTruthy] at ht
      rcases keys_truthySet_cases h4 with ⟨rfl, ht⟩ | h3
      · rw [hundef] at ht; simp [jsTruthy] at ht
      rcases keys_truthySet_cases h3 with ⟨rfl, ht⟩ | h2
      · rw [hundef] at ht; simp [jsTruthy] at ht
      rcases keys_truthySet_cases h2 with ⟨rfl, ht⟩ | h1
      · rw [hundef] at ht; simp [jsTruthy] at ht
      rcases keys_truthySet_cases h1 with ⟨rfl, ht⟩ | h0
      · rw [hundef] at ht; simp [jsTruthy] at ht
      · simp at h0
  -- record_attestation
  rcases hmem with ⟨rfl, rfl⟩ | hmem
  · exfalso
    rcases hw with hb | hq
    · simp only [record_attestation] at hb
      exact not_mem_bodyKeys_removeKey_omitted hnot hb
    · simp [record_attestation, queryKeys] at hq
  -- get_catalog
  rcases hmem with ⟨rfl, rfl⟩ | hmem
  · exact absurd hf (List.not_mem_nil f)
  -- create_catalog
  rcases hmem with ⟨rfl, rfl⟩ | hmem
  · exfalso
    rcases hw with hb | hq
    · simp only [create_catalog] at hb
      exact not_mem_bodyKeys_removeKey_omitted hnot hb
    · simp [create_catalog, queryKeys] at hq
  -- publish_catalog
  rcases hmem with ⟨rfl, rfl⟩ | hmem
  · exfalso
    rcases hw with hb | hq
    · simp only [publish_catalog] at hb
      refine not_mem_bodyKeys_of_entries ?_ hundef hb
      intro x hx hxf
      rcases mem_of_mem_ite_append hx with hx | hx
      · have hx2 := mem_of_mem_ite_nil hx
        simp only [List.nil_append, List.mem_cons, List.not_mem_nil,
          or_false] at hx2
        subst hx2
        rw [← hxf]
      · simp only [List.mem_cons, List.not_mem_nil, or_false] at hx
        subst hx
        rw [← hxf]
    · simp [publish_catalog, queryKeys] at hq
  -- list_catalog_versions
  rcases hmem with ⟨rfl, rfl⟩ | hmem
  · exact absurd hf (List.not_mem_nil f)
  -- get_catalog_version
  rcases hmem with ⟨rfl, rfl⟩ | hmem
  · exact absurd hf (List.not_mem_nil f)
  -- get_catalog_impact
  rcases hmem with ⟨rfl, rfl⟩ | hmem
  · exact absurd hf (List.not_mem_nil f)
  -- check_gate
  rcases hmem with ⟨rfl, rfl⟩ | hmem
  · exfalso
    rcases hw with hb | hq
    · simp only [check_gate] at hb
      refine not_mem_bodyKeys_of_entries ?_ hundef hb
      intro x hx hxf
      rcases mem_of_mem_ite_append hx with hx | hx
      · rcases mem_of_mem_ite_append hx with hx | hx
        · simp only [List.mem_cons, List.not_mem_nil, or_false] at hx
          subst hx
          rw [← hxf]
        · simp only [List.mem_cons, List.not_mem_nil, or_false] at hx
          subst hx
          rw [← hxf]
      · simp only [List.mem_cons, List.not_mem_nil, or_false] at hx
        subst hx
        rw [← hxf]
    · simp [check_gate, queryKeys] at hq
  -- authorize_dry_run
  rcases hmem with ⟨rfl, rfl⟩ | hmem
  · exfalso
    rcases hw with hb | hq
    · simp only [authorize_dry_run] at hb
      refine not_mem_bodyKeys_of_entries ?_ hundef hb
      intro x hx hxf
      rcases mem_of_mem_ite_append hx with hx | hx
      · simp only [List.mem_cons, List.not_mem_nil, or_false] at hx
        rcases hx with rfl | rfl | rfl <;> rw [← hxf]
      · simp only [List.mem_cons, List.not_mem_nil, or_false] at hx
        subst hx
        rw [← hxf]
    · simp [authorize_dry_run, queryKeys] at hq
  -- get_constraints
  rcases hmem with ⟨rfl, rfl⟩ | hmem
  · exact absurd hf (List.not_mem_nil f)
  -- set_constraints
  rcases hmem with ⟨rfl, rfl⟩ | hmem
  · exact absurd hf (List.not_mem_nil f)
  -- list_constraint_types
  rcases hmem with ⟨rfl, rfl⟩ | hmem
  · exfalso
    rcases hw with hb | hq
    · simp [list_constraint_types, bodyKeys, wireBody] at hb
    · simp only [list_constraint_types, queryKeys] at hq
      refine not_mem_keys_buildQuery_of_entries ?_ ?_ hundef hq
      · simp only [List.map_cons, List.map_nil]; decide
      · intro x hx hxf
        simp only [List.mem_cons, List.not_mem_nil, or_false] at hx
        subst hx
        rw [← hxf]
  -- list_constraint_templates
  rcases hmem with ⟨rfl, rfl⟩ | hmem
  · exfalso
    rcases hw with hb | hq
    · simp [list_constraint_templates, bodyKeys, wireBody] at hb
    · simp only [list_constraint_templates, queryKeys] at hq
      refine not_mem_keys_buildQuery_of_entries ?_ ?_ hundef hq
      · simp only [List.map_cons, List.map_nil]; decide
      · intro x hx hxf
        simp only [List.mem_cons, List.not_mem_nil, or_false] at hx
        subst hx
        rw [← hxf]
  -- apply_constraint_template
  rcases hmem with ⟨rfl, rfl⟩ | hmem
  · exact absurd hf (List.not_mem_nil f)
  -- create_constraint_template
  rcases hmem with ⟨rfl, rfl⟩ | hmem
  · exfalso
    rcases hw with hb | hq
    · simp only [create_constraint_template] at hb
      exact not_mem_bodyKeys_args_omitted hnot hb
    · simp [create_constraint_template, queryKeys] at hq
  -- enforce_action
  rcases hmem with ⟨rfl, rfl⟩ | hmem
  · exfalso
    rcases hw with hb | hq
    · simp only [enforce_action] at hb
      refine not_mem_bodyKeys_of_entries ?_ hundef hb
      intro x hx hxf
      rcases mem_of_mem_ite_append hx with hx | hx
      · rcases mem_of_mem_ite_append hx with hx | hx
        · rcases mem_of_mem_ite_append hx with hx | hx
          · simp only [List.mem_cons, List.not_mem_nil, or_false] at hx
            rcases hx with rfl | rfl <;> rw [← hxf]
          · simp only [List.mem_cons, List.not_mem_nil, or_false] at hx
            subst hx
            rw [← hxf]
        · simp only [List.mem_cons, List.not_mem_nil, or_false] at hx
          subst hx
          rw [← hxf]
      · simp only [List.mem_cons, List.not_mem_nil, or_false] at hx
        subst hx
        rw [← hxf]
    · simp [enforce_action, queryKeys] at hq
  -- list_enforcement_attestations
  rcases hmem with ⟨rfl, rfl⟩ | hmem
  · exfalso
    rcases hw with hb | hq
    · simp [list_enforcement_attestations, bodyKeys, wireBody] at hb
    · simp only [list_enforcement_attestations, queryKeys] at hq
      refine not_mem_keys_buildQuery_of_entries ?_ ?_ hundef hq
      · simp only [List.map_cons, List.map_nil]; decide
      · intro x hx hxf
        simp only [List.mem_cons, List.not_mem_nil, or_false] at hx
        rcases hx with rfl | rfl <;> rw [← hxf]
  -- get_enforcement_attestation
  rcases hmem with ⟨rfl, rfl⟩ | hmem
  · exact absurd hf (List.not_mem_nil f)
  -- verify_enforcement_attestation
  rcases hmem with ⟨rfl, rfl⟩ | hmem
  · exact absurd hf (List.not_mem_nil f)
  -- get_anonymous_policy
  rcases hmem with ⟨rfl, rfl⟩ | hmem
  · exact absurd hf (List.not_mem_nil f)
  -- set_anonymous_policy
  rcases hmem with ⟨rfl, rfl⟩ | hmem
  · exfalso
    rcases hw with hb | hq
    · simp only [set_anonymous_policy] at hb
      exact not_mem_bodyKeys_removeKey_omitted hnot hb
    · simp [set_anonymous_policy, queryKeys] at hq
  -- get_anonymous_log
  rcases hmem with ⟨rfl, rfl⟩ | hmem
  · exact absurd hf (List.not_mem_nil f)
  -- get_cumulative_state
  rcases hmem with ⟨rfl, rfl⟩ | hmem
  · exact absurd hf (List.not_mem_nil f)
  -- reset_cumulative_state
  rcases hmem with ⟨rfl, rfl⟩ | hmem
  · exfalso
    rcases hw with hb | hq
    · simp only [reset_cumulative_state] at hb
      refine not_mem_bodyKeys_of_entries ?_ hundef hb
      intro x hx hxf
      have hx2 := mem_of_mem_ite_nil hx
      simp only [List.mem_cons, List.not_mem_nil, or_false] at hx2
      subst hx2
      rw [← hxf]
    · simp [reset_cumulative_state, queryKeys] at hq
  -- discover_services
  rcases hmem with ⟨rfl, rfl⟩ | hmem
  · exfalso
    rcases hw with hb | hq
    · simp [discover_services, bodyKeys, wireBody] at hb
    · simp only [discover_services, queryKeys] at hq
      refine not_mem_keys_buildQuery_of_entries ?_ ?_ hundef hq
      · simp only [List.map_cons, List.map_nil]; decide
      · intro x hx hxf
        simp only [List.mem_cons, List.not_mem_nil, or_false] at hx
        rcases hx with rfl | rfl | rfl | rfl | rfl | rfl | rfl | rfl <;>
          rw [← hxf]
  -- issue_consumption_attestation
  rcases hmem with ⟨rfl, rfl⟩ | hmem
  · by_cases hfq : f = "quantity"
    · exact ⟨rfl, hfq⟩
    exfalso
    rcases hw with hb | hq
    · simp only [issue_consumption_attestation] at hb
      refine not_mem_bodyKeys_of_entries ?_ hundef hb
      intro x hx hxf
      rcases mem_of_mem_ite_append hx with hx | hx
      · rcases mem_of_mem_ite_append hx with hx | hx
        · rcases mem_of_mem_ite_append hx with hx | hx
          · rcases mem_of_mem_ite_append hx with hx | hx
            · simp only [List.mem_cons, List.not_mem_nil, or_false] at hx
              rcases hx with rfl | rfl | rfl | rfl | rfl
              · rw [← hxf]
              · rw [← hxf]
              · rw [← hxf]
              · rw [← hxf]
              · rw [← hxf] at hfq
                simp at hfq
            · simp only [List.mem_cons, List.not_mem_nil, or_false] at hx
              subst hx
              rw [← hxf]
          · simp only [List.mem_cons, List.not_mem_nil, or_false] at hx
            subst hx
            rw [← hxf]
        · simp only [List.mem_cons, List.not_mem_nil, or_false] at hx
          subst hx
          rw [← hxf]
      · simp only [List.mem_cons, List.not_mem_nil, or_false] at hx
        subst hx
        rw [← hxf]
    · simp [issue_consumption_attestation, queryKeys] at hq
  -- generate_settlement
  rcases hmem with ⟨rfl, rfl⟩ | hmem
  · exfalso
    rcases hw with hb | hq
    · simp only [generate_settlement] at hb
      refine not_mem_bodyKeys_of_entries ?_ hundef hb
      intro x hx hxf
      rcases mem_of_mem_ite_append hx with hx | hx
      · simp only [List.mem_cons, List.not_mem_nil, or_false] at hx
        rcases hx with rfl | rfl | rfl | rfl <;> rw [← hxf]
      · simp only [List.mem_cons, List.not_mem_nil, or_false] at hx
        subst hx
        rw [← hxf]
    · simp [generate_settlement, queryKeys] at hq
  -- list_settlements
  rcases hmem with ⟨rfl, rfl⟩ | hmem
  · exfalso
    have hf2 : f ∈ ["gate_id", "agent_id", "period_type", "status",
        "from_date", "to_date", "limit", "offset"] := hf
    rcases hw with hb | hq
    · simp [list_settlements, bodyKeys, wireBody] at hb
    · simp only [list_settlements, queryKeys] at hq
      refine not_mem_keys_buildQuery_of_entries ?_ ?_ hundef hq
      · simp only [List.map_cons, List.map_nil]; decide
      · intro x hx hxf
        simp only [List.mem_cons, List.not_mem_nil, or_false] at hx
        rcases hx with rfl | rfl | rfl | rfl | rfl | rfl | rfl | rfl <;>
          first
            | (rw [← hxf]; done)
            | (rw [← hxf] at hf2; simp at hf2)
  -- get_settlement
  rcases hmem with ⟨rfl, rfl⟩ | hmem
  · exact absurd hf (List.not_mem_nil f)
  -- update_settlement_status
  rcases hmem with ⟨rfl, rfl⟩ | hmem
  · exact absurd hf (List.not_mem_nil f)
  -- get_sla_compliance
  rcases hmem with ⟨rfl, rfl⟩ | hmem
  · exfalso
    rcases hw with hb | hq
    · simp [get_sla_compliance, bodyKeys, wireBody] at hb
    · simp only [get_sla_compliance, queryKeys] at hq
      refine not_mem_keys_buildQuery_of_entries ?_ ?_ hundef hq
      · simp only [List.map_cons, List.map_nil]; decide
      · intro x hx hxf
        simp only [List.mem_cons, List.not_mem_nil, or_false] at hx
        rcases hx with rfl | rfl | rfl <;> rw [← hxf]
  -- list_api_keys
  rcases hmem with ⟨rfl, rfl⟩ | hmem
  · exact absurd hf (List.not_mem_nil f)
  -- create_api_key
  rcases hmem with ⟨rfl, rfl⟩ | hmem
  · exfalso
    rcases hw with hb | hq
    · simp only [create_api_key] at hb
      refine not_mem_bodyKeys_of_entries ?_ hundef hb
      intro x hx hxf
      rcases mem_of_mem_ite_append hx with hx | hx
      · simp only [List.mem_cons, List.not_mem_nil, or_false] at hx
        subst hx
        rw [← hxf]
      · simp only [List.mem_cons, List.not_mem_nil, or_false] at hx
        subst hx
        rw [← hxf]
    · simp [create_api_key, queryKeys] at hq
  -- revoke_api_key
  rcases hmem with ⟨rfl, rfl⟩ | hmem
  · exact absurd hf (List.not_mem_nil f)
  exact absurd hmem (List.not_mem_nil _)

/-- C1 counterexample: `set_constraints` forwards the caller's
`constraints` value verbatim as the body, so an argument record whose
`constraints` object contains a `passport_id` key puts the path-embedded
identifier's name into the produced body. -/
theorem set_constraints_leaks_path_identifier :
    "passport_id" ∈ pathFields "set_constraints" ∧
      "passport_id" ∈ bodyKeys
        (set_constraints
          [("passport_id", JsValue.str "pp_abc"),
           ("constraints", JsValue.obj [("passport_id", JsValue.num 1)])]) :=
  ⟨by decide, by decide⟩

/-- C1 (amended): for every operation except `set_constraints` — whose
body is the caller-supplied `constraints` value forwarded verbatim — a
path-embedded identifier field never appears as a key of the produced
wire body or query, whatever the argument record. -/
theorem path_identifier_disjointness :
    ∀ op hdl, (op, hdl) ∈ allHandlers → op ≠ "set_constraints" →
      ∀ (args : Args) (f : String), f ∈ pathFields op →
        f ∉ bodyKeys (hdl args) ∧ f ∉ queryKeys (hdl args) := by
  intro op hdl hmem hne args f hf
  simp only [allHandlers, List.mem_cons, Prod.mk.injEq] at hmem
  -- list_gates
  rcases hmem with ⟨rfl, rfl⟩ | hmem
  · exact absurd hf (List.not_mem_nil f)
  -- get_gate
  rcases hmem with ⟨rfl, rfl⟩ | hmem
  · exact ⟨fun h => by simp [get_gate, bodyKeys, wireBody] at h,
      fun h => by simp [get_gate, queryKeys] at h⟩
  -- create_gate
  rcases hmem with ⟨rfl, rfl⟩ | hmem
  · exact absurd hf (List.not_mem_nil f)
  -- update_gate
  rcases hmem with ⟨rfl, rfl⟩ | hmem
  · have hf2 : f ∈ ["gate_id"] := hf
    simp only [List.mem_cons, List.not_mem_nil, or_false] at hf2
    subst hf2
    refine ⟨fun h => ?_, fun h => ?_⟩
    · simp only [update_gate] at h
      exact not_mem_bodyKeys_removeKey_self h
    · simp [update_gate, queryKeys] at h
  -- delete_gate
  rcases hmem with ⟨rfl, rfl⟩ | hmem
  · exact ⟨fun h => by simp [delete_gate, bodyKeys, wireBody] at h,
      fun h => by simp [delete_gate, queryKeys] at h⟩
  -- list_passports
  rcases hmem with ⟨rfl, rfl⟩ | hmem
  · exact ⟨fun h => by simp [list_passports, bodyKeys, wireBody] at h,
      fun h => by simp [list_passports, queryKeys] at h⟩
  -- get_passport
  rcases hmem with ⟨rfl, rfl⟩ | hmem
  · exact ⟨fun h => by simp [get_passport, bodyKeys, wireBody] at h,
      fun h => by simp [get_passport, queryKeys] at h⟩
  -- issue_passport
  rcases hmem with ⟨rfl, rfl⟩ | hmem
  · have hf2 : f ∈ ["gate_id"] := hf
    simp only [List.mem_cons, List.not_mem_nil, or_false] at hf2
    subst hf2
    refine ⟨fun h => ?_, fun h => ?_⟩
    · simp only [issue_passport] at h
      exact not_mem_bodyKeys_removeKey_self h
    · simp [issue_passport, queryKeys] at h
  -- revoke_passport
  rcases hmem with ⟨rfl, rfl⟩ | hmem
  · exact ⟨fun h => by simp [revoke_passport, bodyKeys, wireBody] at h,
      fun h => by simp [revoke_passport, queryKeys] at h⟩
  -- reissue_passport
  rcases hmem with ⟨rfl, rfl⟩ | hmem
  · have hf2 : f ∈ ["passport_id"] := hf
    simp only [List.mem_cons, List.not_mem_nil, or_false] at hf2
    subst hf2
    refine ⟨fun h => ?_, fun h => ?_⟩
    · simp only [reissue_passport] at h
      refine not_mem_bodyKeys_of_keys ?_ h
      intro x hx
      have hx2 := mem_of_mem_ite_nil hx
      simp only [List.mem_cons, List.not_mem_nil, or_false] at hx2
      subst hx2; simp
    · simp [reissue_passport, queryKeys] at h
  -- list_attestations
  rcases hmem with ⟨rfl, rfl⟩ | hmem
  · have hf2 : f ∈ ["gate_id"] := hf
    simp only [List.mem_cons, List.not_mem_nil, or_false] at hf2
    subst hf2
    refine ⟨fun h => ?_, fun h => ?_⟩
    · simp [list_attestations, bodyKeys, wireBody] at h
    · simp only [list_attestations, queryKeys] at h
      rcases keys_truthySet_cases h with ⟨he, _⟩ | h4
      · exact absurd he (by decide)
      rcases keys_truthySet_cases h4 with ⟨he, _⟩ | h3
      · exact absurd he (by decide)
      rcases keys_truthySet_cases h3 with ⟨he, _⟩ | h2
      · exact absurd he (by decide)
      rcases keys_truthySet_cases h2 with ⟨he, _⟩ | h1
      · exact absurd he (by decide)
      rcases keys_truthySet_cases h1 with ⟨he, _⟩ | h0
      · exact absurd he (by decide)
      · simp at h0
  -- record_attestation
  rcases hmem with ⟨rfl, rfl⟩ | hmem
  · have hf2 : f ∈ ["gate_id"] := hf
    simp only [List.mem_cons, List.not_mem_nil, or_false] at hf2
    subst hf2
    refine ⟨fun h => ?_, fun h => ?_⟩
    · simp only [record_attestation] at h
      exact not_mem_bodyKeys_removeKey_self h
    · simp [record_attestation, queryKeys] at h
  -- get_catalog
  rcases hmem with ⟨rfl, rfl⟩ | hmem
  · exact ⟨fun h => by simp [get_catalog, bodyKeys, wireBody] at h,
      fun h => by simp [get_catalog, queryKeys] at h⟩
  -- create_catalog
  rcases hmem with ⟨rfl, rfl⟩ | hmem
  · have hf2 : f ∈ ["gate_id"] := hf
    simp only [List.mem_cons, List.not_mem_nil, or_false] at hf2
    subst hf2
    refine ⟨fun h => ?_, fun h => ?_⟩
    · simp only [create_catalog] at h
      exact not_mem_bodyKeys_removeKey_self h
    · simp [create_catalog, queryKeys] at h
  -- publish_catalog
  rcases hmem with ⟨rfl, rfl⟩ | hmem
  · have hf2 : f ∈ ["gate_id"] := hf
    simp only [List.mem_cons, List.not_mem_nil, or_false] at hf2
    subst hf2
    refine ⟨fun h => ?_, fun h => ?_⟩
    · simp only [publish_catalog] at h
      refine not_mem_bodyKeys_of_keys ?_ h
      intro x hx
      rcases mem_of_mem_ite_append hx with hx | hx
      · have hx2 := mem_of_mem_ite_nil hx
        simp only [List.nil_append, List.mem_cons, List.not_mem_nil,
          or_false] at hx2
        subst hx2; simp
      · simp only [List.mem_cons, List.not_mem_nil, or_false] at hx
        subst hx; simp
    · simp [publish_catalog, queryKeys] at h
  -- list_catalog_versions
  rcases hmem with ⟨rfl, rfl⟩ | hmem
  · exact ⟨fun h => by simp [list_catalog_versions, bodyKeys, wireBody] at h,
      fun h => by simp [list_catalog_versions, queryKeys] at h⟩
  -- get_catalog_version
  rcases hmem with ⟨rfl, rfl⟩ | hmem
  · exact ⟨fun h => by simp [get_catalog_version, bodyKeys, wireBody] at h,
      fun h => by simp [get_catalog_version, queryKeys] at h⟩
  -- get_catalog_impact
  rcases hmem with ⟨rfl, rfl⟩ | hmem
  · exact ⟨fun h => by simp [get_catalog_impact, bodyKeys, wireBody] at h,
      fun h => by simp [get_catalog_impact, queryKeys] at h⟩
  -- check_gate
  rcases hmem with ⟨rfl, rfl⟩ | hmem
  · have hf2 : f ∈ ["gate_id"] := hf
    simp only [List.mem_cons, List.not_mem_nil, or_false] at hf2
    subst hf2
    refine ⟨fun h => ?_, fun h => ?_⟩
    · simp only [check_gate] at h
      refine not_mem_bodyKeys_of_keys ?_ h
      intro x hx
      rcases mem_of_mem_ite_append hx with hx | hx
      · rcases mem_of_mem_ite_append hx with hx | hx
        · simp only [List.mem_cons, List.not_mem_nil, or_false] at hx
          subst hx; simp
        · simp only [List.mem_cons, List.not_mem_nil, or_false] at hx
          subst hx; simp
      · simp only [List.mem_cons, List.not_mem_nil, or_false] at hx
        subst hx; simp
    · simp [check_gate, queryKeys] at h
  -- authorize_dry_run
  rcases hmem with ⟨rfl, rfl⟩ | hmem
  · exact absurd hf (List.not_mem_nil f)
  -- get_constraints
  rcases hmem with ⟨rfl, rfl⟩ | hmem
  · exact ⟨fun h => by simp [get_constraints, bodyKeys, wireBody] at h,
      fun h => by simp [get_constraints, queryKeys] at h⟩
  -- set_constraints
  rcases hmem with ⟨rfl, rfl⟩ | hmem
  · exact absurd rfl hne
  -- list_constraint_types
  rcases hmem with ⟨rfl, rfl⟩ | hmem
  · exact absurd hf (List.not_mem_nil f)
  -- list_constraint_templates
  rcases hmem with ⟨rfl, rfl⟩ | hmem
  · exact absurd hf (List.not_mem_nil f)
  -- apply_constraint_template
  rcases hmem with ⟨rfl, rfl⟩ | hmem
  · have hf2 : f ∈ ["passport_id"] := hf
    simp only [List.mem_cons, List.not_mem_nil, or_false] at hf2
    subst hf2
    refine ⟨fun h => ?_, fun h => ?_⟩
    · simp only [apply_constraint_template] at h
      refine not_mem_bodyKeys_of_keys ?_ h
      intro x hx
      simp only [List.mem_cons, List.not_mem_nil, or_false] at hx
      subst hx; simp
    · simp [apply_constraint_template, queryKeys] at h
  -- create_constraint_template
  rcases hmem with ⟨rfl, rfl⟩ | hmem
  · exact absurd hf (List.not_mem_nil f)
  -- enforce_action
  rcases hmem with ⟨rfl, rfl⟩ | hmem
  · exact absurd hf (List.not_mem_nil f)
  -- list_enforcement_attestations
  rcases hmem with ⟨rfl, rfl⟩ | hmem
  · have hf2 : f ∈ ["passport_id"] := hf
    simp only [List.mem_cons, List.not_mem_nil, or_false] at hf2
    subst hf2
    refine ⟨fun h => ?_, fun h => ?_⟩
    · simp [list_enforcement_attestations, bodyKeys, wireBody] at h
    · simp only [list_enforcement_attestations, queryKeys] at h
      refine not_mem_keys_buildQuery_of_keys ?_ ?_ h
      · simp only [List.map_cons, List.map_nil]; decide
      · intro x hx
        simp only [List.mem_cons, List.not_mem_nil, or_false] at hx
        rcases hx with rfl | rfl <;> simp
  -- get_enforcement_attestation
  rcases hmem with ⟨rfl, rfl⟩ | hmem
  · exact ⟨fun h => by
        simp [get_enforcement_attestation, bodyKeys, wireBody] at h,
      fun h => by simp [get_enforcement_attestation, queryKeys] at h⟩
  -- verify_enforcement_attestation
  rcases hmem with ⟨rfl, rfl⟩ | hmem
  · exact ⟨fun h => by
        simp [verify_enforcement_attestation, bodyKeys, wireBody] at h,
      fun h => by simp [verify_enforcement_attestation, queryKeys] at h⟩
  -- get_anonymous_policy
  rcases hmem with ⟨rfl, rfl⟩ | hmem
  · exact ⟨fun h => by simp [get_anonymous_policy, bodyKeys, wireBody] at h,
      fun h => by simp [get_anonymous_policy, queryKeys] at h⟩
  -- set_anonymous_policy
  rcases hmem with ⟨rfl, rfl⟩ | hmem
  · have hf2 : f ∈ ["gate_id"] := hf
    simp only [List.mem_cons, List.not_mem_nil, or_false] at hf2
    subst hf2
    refine ⟨fun h => ?_, fun h => ?_⟩
    · simp only [set_anonymous_policy] at h
      exact not_mem_bodyKeys_removeKey_self h
    · simp [set_anonymous_policy, queryKeys] at h
  -- get_anonymous_log
  rcases hmem with ⟨rfl, rfl⟩ | hmem
  · exact ⟨fun h => by simp [get_anonymous_log, bodyKeys, wireBody] at h,
      fun h => by simp [get_anonymous_log, queryKeys] at h⟩
  -- get_cumulative_state
  rcases hmem with ⟨rfl, rfl⟩ | hmem
  · exact ⟨fun h => by simp [get_cumulative_state, bodyKeys, wireBody] at h,
      fun h => by simp [get_cumulative_state, queryKeys] at h⟩
  -- reset_cumulative_state
  rcases hmem with ⟨rfl, rfl⟩ | hmem
  · have hf2 : f ∈ ["passport_id"] := hf
    simp only [List.mem_cons, List.not_mem_nil, or_false] at hf2
    subst hf2
    refine ⟨fun h => ?_, fun h => ?_⟩
    · simp only [reset_cumulative_state] at h
      refine not_mem_bodyKeys_of_keys ?_ h
      intro x hx
      have hx2 := mem_of_mem_ite_nil hx
      simp only [List.mem_cons, List.not_mem_nil, or_false] at hx2
      subst hx2; simp
    · simp [reset_cumulative_state, queryKeys] at h
  -- discover_services
  rcases hmem with ⟨rfl, rfl⟩ | hmem
  · exact absurd hf (List.not_mem_nil f)
  -- issue_consumption_attestation
  rcases hmem with ⟨rfl, rfl⟩ | hmem
  · exact absurd hf (List.not_mem_nil f)
  -- generate_settlement
  rcases hmem with ⟨rfl, rfl⟩ | hmem
  · exact absurd hf (List.not_mem_nil f)
  -- list_settlements
  rcases hmem with ⟨rfl, rfl⟩ | hmem
  · exact absurd hf (List.not_mem_nil f)
  -- get_settlement
  rcases hmem with ⟨rfl, rfl⟩ | hmem
  · exact ⟨fun h => by simp [get_settlement, bodyKeys, wireBody] at h,
      fun h => by simp [get_settlement, queryKeys] at h⟩
  -- update_settlement_status
  rcases hmem with ⟨rfl, rfl⟩ | hmem
  · have hf2 : f ∈ ["settlement_id"] := hf
    simp only [List.mem_cons, List.not_mem_nil, or_false] at hf2
    subst hf2
    refine ⟨fun h => ?_, fun h => ?_⟩
    · simp only [update_settlement_status] at h
      refine not_mem_bodyKeys_of_keys ?_ h
      intro x hx
      simp only [List.mem_cons, List.not_mem_nil, or_false] at hx
      subst hx; simp
    · simp [update_settlement_status, queryKeys] at h
  -- get_sla_compliance
  rcases hmem with ⟨rfl, rfl⟩ | hmem
  · have hf2 : f ∈ ["gate_id"] := hf
    simp only [List.mem_cons, List.not_mem_nil, or_false] at hf2
    subst hf2
    refine ⟨fun h => ?_, fun h => ?_⟩
    · simp [get_sla_compliance, bodyKeys, wireBody] at h
    · simp only [get_sla_compliance, queryKeys] at h
      refine not_mem_keys_buildQuery_of_keys ?_ ?_ h
      · simp only [List.map_cons, List.map_nil]; decide
      · intro x hx
        simp only [List.mem_cons, List.not_mem_nil, or_false] at hx
        rcases hx with rfl | rfl | rfl <;> simp
  -- list_api_keys
  rcases hmem with ⟨rfl, rfl⟩ | hmem
  · exact absurd hf (List.not_mem_nil f)
  -- create_api_key
  rcases hmem with ⟨rfl, rfl⟩ | hmem
  · exact absurd hf (List.not_mem_nil f)
  -- revoke_api_key
  rcases hmem with ⟨rfl, rfl⟩ | hmem
  · exact ⟨fun h => by simp [revoke_api_key, bodyKeys, wireBody] at h,
      fun h => by simp [revoke_api_key, queryKeys] at h⟩
  exact absurd hmem (List.not_mem_nil _)

theorem path_identifier_disjointness_witness :
    "gate_id" ∉ bodyKeys
        (issue_passport
          [("gate_id", JsValue.str "g"), ("agent_id", JsValue.str "a")]) ∧
      "gate_id" ∉ queryKeys
        (issue_passport
          [("gate_id", JsValue.str "g"), ("agent_id", JsValue.str "a")]) :=
  path_identifier_disjointness "issue_passport" issue_passport
    (by simp [allHandlers]) (by decide)
    [("gate_id", JsValue.str "g"), ("agent_id", JsValue.str "a")] "gate_id"
    (by decide)

/-- C4 counterexample: the consumption-attestation `quantity` field is
optional and omitted here, yet it appears as a key of the produced wire
body (filled with the default `1`). -/
theorem quantity_default_appears_when_omitted :
    "quantity" ∉
        ([("passport_id", JsValue.str "pp"), ("gate_id", JsValue.str "g"),
          ("action", JsValue.str "a"), ("outcome", JsValue.str "success")] :
            Args).map Prod.fst ∧
      "quantity" ∈ toolOptionalFields "issue_consumption_attestation" ∧
      "quantity" ∈ bodyKeys
        (issue_consumption_attestation
          [("passport_id", JsValue.str "pp"), ("gate_id", JsValue.str "g"),
           ("action", JsValue.str "a"), ("outcome", JsValue.str "success")]) :=
  ⟨by decide, by decide, by decide⟩

/-- C4 (amended): an omitted declared optional field never appears as a
key of the produced wire body or query — except the consumption-quantity
field of `issue_consumption_attestation`, which is default-filled with 1;
in particular `reissue_passport` called with only the passport id sends
the empty body `{}`, and `create_gate` without `description` sends a wire
body with no `description` key. -/
theorem omitted_optional_fields_absent :
    (∀ op hdl, (op, hdl) ∈ allHandlers → ∀ (args : Args) (f : String),
        f ∈ toolOptionalFields op → f ∉ args.map Prod.fst →
        (f ∉ bodyKeys (hdl args) ∧ f ∉ queryKeys (hdl args)) ∨
          (op = "issue_consumption_attestation" ∧ f = "quantity")) ∧
      wireBody (reissue_passport [("passport_id", JsValue.str "pp_abc")]).body
          = some (.obj []) ∧
      "description" ∉ bodyKeys
        (create_gate
          [("name", JsValue.str "New"), ("gate_id", JsValue.str "gate_new"),
           ("profile", JsValue.str "L1")]) := by
  refine ⟨?_, rfl, by decide⟩
  intro op hdl hmem args f hf hnot
  by_cases hw : f ∈ bodyKeys (hdl args) ∨ f ∈ queryKeys (hdl args)
  · exact Or.inr (omitted_field_dichotomy op hdl hmem args f hf hnot hw)
  · push_neg at hw
    exact Or.inl hw

theorem omitted_optional_fields_absent_witness :
    ("description" ∉ bodyKeys (create_gate [("name", JsValue.str "N")]) ∧
        "description" ∉ queryKeys (create_gate [("name", JsValue.str "N")])) ∨
      ("create_gate" = "issue_consumption_attestation" ∧
        "description" = "quantity") :=
  omitted_optional_fields_absent.1 "create_gate" create_gate
    (by simp [allHandlers]) [("name", JsValue.str "N")] "description"
    (by decide) (by decide)

/-- C6: the consumption-quantity field is default-filled with 1 when the
caller omits it and carries the supplied value otherwise, and it is the
only field in the whole operation set with a default-fill rule: every
other omitted declared optional field stays off the wire entirely. -/
theorem quantity_default_unique :
    (∀ args : Args, "quantity" ∉ args.map Prod.fst →
        bodyField (issue_consumption_attestation args) "quantity"
          = some (.num 1)) ∧
      (∀ (args : Args) (q : Int), args.lookup "quantity" = some (.num q) →
        bodyField (issue_consumption_attestation args) "quantity"
          = some (.num q)) ∧
      ∀ op hdl, (op, hdl) ∈ allHandlers → ∀ (args : Args) (f : String),
        f ∈ toolOptionalFields op → f ∉ args.map Prod.fst →
        (f ∈ bodyKeys (hdl args) ∨ f ∈ queryKeys (hdl args)) →
        op = "issue_consumption_attestation" ∧ f = "quantity" :=
  ⟨consume_quantity_default, consume_quantity_supplied,
   omitted_field_dichotomy⟩

theorem quantity_default_unique_witness :
    bodyField
        (issue_consumption_attestation
          [("passport_id", JsValue.str "pp"), ("gate_id", JsValue.str "g"),
           ("action", JsValue.str "a"), ("outcome", JsValue.str "success")])
        "quantity" = some (.num 1) ∧
      bodyField
        (issue_consumption_attestation
          [("passport_id", JsValue.str "pp"), ("gate_id", JsValue.str "g"),
           ("action", JsValue.str "a"), ("outcome", JsValue.str "success"),
           ("quantity", JsValue.num 3)])
        "quantity" = some (.num 3) :=
  ⟨quantity_default_unique.1
      [("passport_id", JsValue.str "pp"), ("gate_id", JsValue.str "g"),
       ("action", JsValue.str "a"), ("outcome", JsValue.str "success")]
      (by decide),
   quantity_default_unique.2.1
      [("passport_id", JsValue.str "pp"), ("gate_id", JsValue.str "g"),
       ("action", JsValue.str "a"), ("outcome", JsValue.str "success"),
       ("quantity", JsValue.num 3)] 3 rfl⟩

/-- C5 counterexample: `list_attestations` guards its query params by
truthiness, so a defined `limit` of `0` — which the claim says must
appear in the query — is omitted. -/
theorem list_attestations_omits_falsy_limit :
    (([("gate_id", JsValue.str "g"), ("limit", JsValue.num 0)] : Args).lookup
          "limit" = some (.num 0)) ∧
      "limit" ∉ queryKeys
        (list_attestations
          [("gate_id", JsValue.str "g"), ("limit", JsValue.num 0)]) :=
  ⟨rfl, by decide⟩

/-- C5 (amended): GET operations that hand their params object to the
transport (`discover_services`, `list_settlements`,
`list_constraint_types`, `list_constraint_templates`,
`list_enforcement_attestations`, `get_sla_compliance`) include every
declared non-path argument whose value is defined — including `0` and the
empty string — stringified under its wire name; `list_attestations`
instead includes a filter exactly when its value is JS-truthy, omitting
falsy values such as `0` and `""`. -/
theorem query_inclusion_by_operation :
    (∀ (args : Args) (f : String),
        f ∈ ["capability", "max_price_cents", "min_uptime_bp",
             "max_response_time_ms", "pricing_model", "sort", "limit",
             "offset"] →
        isUndef (getArg args f) = false →
        (f, jsString (getArg args f)) ∈ (discover_services args).query) ∧
      (∀ (args : Args) (f w : String),
        (f, w) ∈ [("gate_id", "gate_id"), ("agent_id", "agent_id"),
                  ("period_type", "period_type"), ("status", "status"),
                  ("from_date", "from"), ("to_date", "to"),
                  ("limit", "limit"), ("offset", "offset")] →
        isUndef (getArg args f) = false →
        (w, jsString (getArg args f)) ∈ (list_settlements args).query) ∧
      (∀ args : Args, isUndef (getArg args "category") = false →
        ("category", jsString (getArg args "category"))
          ∈ (list_constraint_types args).query) ∧
      (∀ args : Args, isUndef (getArg args "category") = false →
        ("category", jsString (getArg args "category"))
          ∈ (list_constraint_templates args).query) ∧
      (∀ (args : Args) (f : String), f ∈ ["decision", "limit"] →
        isUndef (getArg args f) = false →
        (f, jsString (getArg args f))
          ∈ (list_enforcement_attestations args).query) ∧
      (∀ (args : Args) (f : String),
        f ∈ ["period_start", "period_end", "permission_key"] →
        isUndef (getArg args f) = false →
        (f, jsString (getArg args f)) ∈ (get_sla_compliance args).query) ∧
      ∀ (args : Args) (f : String),
        f ∈ ["passport_id", "agent_id", "permission", "since", "limit"] →
        (jsTruthy (getArg args f) = true →
            (f, jsString (getArg args f)) ∈ (list_attestations args).query) ∧
          (jsTruthy (getArg args f) = false →
            f ∉ queryKeys (list_attestations args)) := by
  refine ⟨?_, ?_, ?_, ?_, ?_, ?_, ?_⟩
  · intro args f hf hv
    simp only [List.mem_cons, List.not_mem_nil, or_false] at hf
    simp only [discover_services]
    rcases hf with rfl | rfl | rfl | rfl | rfl | rfl | rfl | rfl
    all_goals
      exact mem_buildQuery (by simp only [List.map_cons, List.map_nil]; decide)
        (by simp) hv
  · intro args f w hfw hv
    simp only [List.mem_cons, List.not_mem_nil, or_false,
      Prod.mk.injEq] at hfw
    simp only [list_settlements]
    rcases hfw with hfw | hfw | hfw | hfw | hfw | hfw | hfw | hfw <;>
      obtain ⟨rfl, rfl⟩ := hfw <;>
      exact mem_buildQuery (by simp only [List.map_cons, List.map_nil]; decide)
        (by simp) hv
  · intro args hv
    simp only [list_constraint_types]
    exact mem_buildQuery
      (by simp only [List.map_cons, List.map_nil]; decide) (by simp) hv
  · intro args hv
    simp only [list_constraint_templates]
    exact mem_buildQuery
      (by simp only [List.map_cons, List.map_nil]; decide) (by simp) hv
  · intro args f hf hv
    simp only [List.mem_cons, List.not_mem_nil, or_false] at hf
    simp only [list_enforcement_attestations]
    rcases hf with rfl | rfl
    all_goals
      exact mem_buildQuery (by simp only [List.map_cons, List.map_nil]; decide)
        (by simp) hv
  · intro args f hf hv
    simp only [List.mem_cons, List.not_mem_nil, or_false] at hf
    simp only [get_sla_compliance]
    rcases hf with rfl | rfl | rfl
    all_goals
      exact mem_buildQuery (by simp only [List.map_cons, List.map_nil]; decide)
        (by simp) hv
  · intro args f hf
    simp only [List.mem_cons, List.not_mem_nil, or_false] at hf
    simp only [list_attestations, queryKeys]
    rcases hf with rfl | rfl | rfl | rfl | rfl
    · constructor
      · intro ht
        apply mem_truthySet_of_ne (by decide)
        apply mem_truthySet_of_ne (by decide)
        apply mem_truthySet_of_ne (by decide)
        apply mem_truthySet_of_ne (by decide)
        exact mem_truthySet_self ht
      · intro hfls hmem
        rcases keys_truthySet_cases hmem with ⟨he, _⟩ | h4
        · exact absurd he (by decide)
        rcases keys_truthySet_cases h4 with ⟨he, _⟩ | h3
        · exact absurd he (by decide)
        rcases keys_truthySet_cases h3 with ⟨he, _⟩ | h2
        · exact absurd he (by decide)
        rcases keys_truthySet_cases h2 with ⟨he, _⟩ | h1
        · exact absurd he (by decide)
        rcases keys_truthySet_cases h1 with ⟨_, ht⟩ | h0
        · rw [ht] at hfls; cases hfls
        · simp at h0
    · constructor
      · intro ht
        apply mem_truthySet_of_ne (by decide)
        apply mem_truthySet_of_ne (by decide)
        apply mem_truthySet_of_ne (by decide)
        exact mem_truthySet_self ht
      · intro hfls hmem
        rcases keys_truthySet_cases hmem with ⟨he, _⟩ | h4
        · exact absurd he (by decide)
        rcases keys_truthySet_cases h4 with ⟨he, _⟩ | h3
        · exact absurd he (by decide)
        rcases keys_truthySet_cases h3 with ⟨he, _⟩ | h2
        · exact absurd he (by decide)
        rcases keys_truthySet_cases h2 with ⟨_, ht⟩ | h1
        · rw [ht] at hfls; cases hfls
        rcases keys_truthySet_cases h1 with ⟨he, _⟩ | h0
        · exact absurd he (by decide)
        · simp at h0
    · constructor
      · intro ht
        apply mem_truthySet_of_ne (by decide)
        apply mem_truthySet_of_ne (by decide)
        exact mem_truthySet_self ht
      · intro hfls hmem
        rcases keys_truthySet_cases hmem with ⟨he, _⟩ | h4
        · exact absurd he (by decide)
        rcases keys_truthySet_cases h4 with ⟨he, _⟩ | h3
        · exact absurd he (by decide)
        rcases keys_truthySet_cases h3 with ⟨_, ht⟩ | h2
        · rw [ht] at hfls; cases hfls
        rcases keys_truthySet_cases h2 with ⟨he, _⟩ | h1
        · exact absurd he (by decide)
        rcases keys_truthySet_cases h1 with ⟨he, _⟩ | h0
        · exact absurd he (by decide)
        · simp at h0
    · constructor
      · intro ht
        apply mem_truthySet_of_ne (by decide)
        exact mem_truthySet_self ht
      · intro hfls hmem
        rcases keys_truthySet_cases hmem with ⟨he, _⟩ | h4
        · exact absurd he (by decide)
        rcases keys_truthySet_cases h4 with ⟨_, ht⟩ | h3
        · rw [ht] at hfls; cases hfls
        rcases keys_truthySet_cases h3 with ⟨he, _⟩ | h2
        · exact absurd he (by decide)
        rcases keys_truthySet_cases h2 with ⟨he, _⟩ | h1
        · exact absurd he (by decide)
        rcases keys_truthySet_cases h1 with ⟨he, _⟩ | h0
        · exact absurd he (by decide)
        · simp at h0
    · constructor
      · intro ht
        exact mem_truthySet_self ht
      · intro hfls hmem
        rcases keys_truthySet_cases hmem with ⟨_, ht⟩ | h4
        · rw [ht] at hfls; cases hfls
        rcases keys_truthySet_cases h4 with ⟨he, _⟩ | h3
        · exact absurd he (by decide)
        rcases keys_truthySet_cases h3 with ⟨he, _⟩ | h2
        · exact absurd he (by decide)
        rcases keys_truthySet_cases h2 with ⟨he, _⟩ | h1
        · exact absurd he (by decide)
        rcases keys_truthySet_cases h1 with ⟨he, _⟩ | h0
        · exact absurd he (by decide)
        · simp at h0

theorem query_inclusion_by_operation_witness :
    ("limit", jsString (getArg [("limit", .num 0)] "limit"))
        ∈ (list_settlements [("limit", .num 0)]).query ∧
      ("passport_id",
          jsString (getArg [("passport_id", .str "pp")] "passport_id"))
        ∈ (list_attestations [("passport_id", .str "pp")]).query :=
  ⟨query_inclusion_by_operation.2.1 [("limit", .num 0)] "limit" "limit"
      (by simp) rfl,
   (query_inclusion_by_operation.2.2.2.2.2.2 [("passport_id", .str "pp")]
      "passport_id" (by simp)).1 rfl⟩

/-- C10: a 2xx response other than 204 whose body is not valid JSON makes
the transport propagate the raw JSON parse exception; the parse-failure
guard applies only to non-2xx responses, which never surface a parse
exception. -/
theorem success_parse_error_propagates (r : HttpResponse) :
    (respOk r = true → r.status ≠ 204 → r.bodyJson = none →
        handleResponse r = .jsonParseError) ∧
      (respOk r = false → handleResponse r ≠ .jsonParseError) := by
  constructor
  · intro hok h204 hb
    simp [handleResponse, hok, h204, hb]
  · intro hno
    simp [handleResponse, hno]

theorem success_parse_error_propagates_witness :
    handleResponse ⟨200, "OK", none⟩ = .jsonParseError ∧
      handleResponse ⟨500, "Error", none⟩ ≠ .jsonParseError :=
  ⟨(success_parse_error_propagates ⟨200, "OK", none⟩).1 rfl (by decide) rfl,
   (success_parse_error_propagates ⟨500, "Error", none⟩).2 rfl⟩

end UniplexManage
